import Mathlib

/-
Verification of the Polar Gosling MCP server (src/MCP/server.py) against its
design spec: the tool catalog, the name-based dispatch, the JSON serialization
of the served datasets, and the request/response loop.
-/

-- The left and right curly-brace characters, used by the JSON syntax.
def lbrace : Char := Char.ofNat 123

def rbrace : Char := Char.ofNat 125

/-- A JSON-like value: the shape of the Python data the server serves.
Python dicts preserve insertion order, so objects are ordered association lists. -/
inductive Json where
  | null : Json
  | bool (b : Bool) : Json
  | int (n : Int) : Json
  | str (s : String) : Json
  | arr (elems : List Json) : Json
  | obj (entries : List (String × Json)) : Json

/-- A tool descriptor, mirroring `mcp.types.Tool` as constructed in src/MCP/server.py:
a name, a description, and an input schema (a JSON object). -/
structure Tool where
  name : String
  description : String
  inputSchema : Json

/-- The decimal digit character for `d < 10`. -/
def digChar (d : Nat) : Char := Char.ofNat (48 + d)

/-- Decimal digits of a natural number, most significant first (Python `repr` of an int). -/
def natDigits (n : Nat) : List Char :=
  if _h : n < 10 then [digChar n]
  else natDigits (n / 10) ++ [digChar (n % 10)]
termination_by n
decreasing_by exact Nat.div_lt_self (by omega) (by omega)

/-- Decimal rendering of an integer, as Python `repr` produces it inside `json.dumps`. -/
def intDigits : Int → List Char
  | .ofNat n => natDigits n
  | .negSucc n => '-' :: natDigits (n + 1)

/-- The lowercase hexadecimal digit character for `d < 16`. -/
def hexChar (d : Nat) : Char :=
  if d < 10 then Char.ofNat (48 + d) else Char.ofNat (87 + d)

/-- Four lowercase hex digits of `n % 0x10000`, as in Python's `\uXXXX` escapes. -/
def hex4 (n : Nat) : List Char :=
  [hexChar (n / 4096 % 16), hexChar (n / 256 % 16), hexChar (n / 16 % 16), hexChar (n % 16)]

/-- Escape one character exactly as CPython's `json` encoder does with the default
`ensure_ascii=True`: the seven short escapes, `\uXXXX` for other control or non-ASCII
characters, and a UTF-16 surrogate pair for characters beyond the BMP. -/
def escChar (c : Char) : List Char :=
  if c = '"' then ['\\', '"']
  else if c = '\\' then ['\\', '\\']
  else if c = Char.ofNat 8 then ['\\', 'b']
  else if c = Char.ofNat 12 then ['\\', 'f']
  else if c = '\n' then ['\\', 'n']
  else if c = '\r' then ['\\', 'r']
  else if c = '\t' then ['\\', 't']
  else if c.toNat < 32 then '\\' :: 'u' :: hex4 c.toNat
  else if c.toNat ≤ 126 then [c]
  else if c.toNat < 65536 then '\\' :: 'u' :: hex4 c.toNat
  else
    let n := c.toNat - 65536
    ('\\' :: 'u' :: hex4 (55296 + n / 1024)) ++ ('\\' :: 'u' :: hex4 (56320 + n % 1024))

/-- Escape a whole string (list of characters) for a JSON string literal. -/
def escString : List Char → List Char
  | [] => []
  | c :: cs => escChar c ++ escString cs

/-- The indentation emitted by `json.dumps(..., indent=2)` at nesting level `k`. -/
def indentOf (k : Nat) : List Char := List.replicate (2 * k) ' '

mutual

/-- Model of Python `json.dumps(v, indent=2)` rendering a value placed at nesting
level `k`, as a list of characters. Matches CPython's output exactly: `[]`/empty-object
for empty containers, otherwise one element per line, items separated by `",\n"`,
keys rendered as `"key": value`, closed by a newline and the enclosing indent. -/
def dumpsV : Nat → Json → List Char
  | _, .null => ['n', 'u', 'l', 'l']
  | _, .bool true => ['t', 'r', 'u', 'e']
  | _, .bool false => ['f', 'a', 'l', 's', 'e']
  | _, .int n => intDigits n
  | _, .str s => '"' :: (escString s.data ++ ['"'])
  | _, .arr [] => ['[', ']']
  | k, .arr (x :: xs) =>
      '[' :: '\n' :: (indentOf (k + 1) ++ (dumpsV (k + 1) x ++ (dumpsArrTail (k + 1) xs ++
        ('\n' :: (indentOf k ++ [']'])))))
  | _, .obj [] => [lbrace, rbrace]
  | k, .obj (e :: es) =>
      lbrace :: '\n' :: (indentOf (k + 1) ++ (dumpsEntry (k + 1) e ++ (dumpsObjTail (k + 1) es ++
        ('\n' :: (indentOf k ++ [rbrace])))))

/-- The `",\n<indent>element"` repetitions after an array's first element. -/
def dumpsArrTail : Nat → List Json → List Char
  | _, [] => []
  | k, x :: xs => ',' :: '\n' :: (indentOf k ++ (dumpsV k x ++ dumpsArrTail k xs))

/-- One object member: `"key": value`. -/
def dumpsEntry : Nat → String × Json → List Char
  | k, (key, v) => '"' :: (escString key.data ++ ('"' :: ':' :: ' ' :: dumpsV k v))

/-- The `",\n<indent>member"` repetitions after an object's first member. -/
def dumpsObjTail : Nat → List (String × Json) → List Char
  | _, [] => []
  | k, e :: es => ',' :: '\n' :: (indentOf k ++ (dumpsEntry k e ++ dumpsObjTail k es))

end

/-- Model of Python `json.dumps(v, indent=2)`: the canonical text serialization
used by `call_tool` in src/MCP/server.py. -/
def dumps (v : Json) : String := String.mk (dumpsV 0 v)

-- Datasets transcribed from src/MCP/data/mothergoose.py.

/-- `MOTHERGOOSE_API_ENDPOINTS` from src/MCP/data/mothergoose.py. -/
def MOTHERGOOSE_API_ENDPOINTS : Json :=
  .arr [
    .obj [
      ("method", .str "GET"),
      ("path", .str "/health"),
      ("description", .str "Service health check"),
      ("auth", .str "none"),
      ("response", .str "200 OK with status")],
    .obj [
      ("method", .str "GET"),
      ("path", .str "/eggs"),
      ("description", .str "List all EggConfigs"),
      ("auth", .str "bearer"),
      ("response", .str "list[EggConfig]")],
    .obj [
      ("method", .str "GET"),
      ("path", .str "/eggs/\x7begg_name\x7d"),
      ("description", .str "Get a single EggConfig by name"),
      ("auth", .str "bearer"),
      ("response", .str "EggConfig")],
    .obj [
      ("method", .str "POST"),
      ("path", .str "/eggs/\x7begg_name\x7d/deploy"),
      ("description", .str "Trigger runner deployment for an egg"),
      ("auth", .str "bearer"),
      ("response", .str "202 Accepted")],
    .obj [
      ("method", .str "GET"),
      ("path", .str "/runners"),
      ("description", .str "List all runners, optional ?state= filter"),
      ("auth", .str "bearer"),
      ("response", .str "list[Runner]")],
    .obj [
      ("method", .str "GET"),
      ("path", .str "/runners/\x7brunner_id\x7d"),
      ("description", .str "Get a single runner by ID"),
      ("auth", .str "bearer"),
      ("response", .str "Runner")],
    .obj [
      ("method", .str "DELETE"),
      ("path", .str "/runners/\x7brunner_id\x7d"),
      ("description", .str "Terminate a runner"),
      ("auth", .str "bearer"),
      ("response", .str "202 Accepted")],
    .obj [
      ("method", .str "POST"),
      ("path", .str "/webhooks/gitlab"),
      ("description", .str "Receive GitLab push/pipeline webhooks. Validates X-Gitlab-Token header, matches egg, enqueues Celery task."),
      ("auth", .str "X-Gitlab-Token header (per-egg secret)"),
      ("response", .str "202 Accepted")],
    .obj [
      ("method", .str "POST"),
      ("path", .str "/internal/sync-git"),
      ("description", .str "Trigger a Nest Git sync. Called by YC Timer or AWS EventBridge every 5 minutes, or on Nest push webhook."),
      ("auth", .str "internal secret token"),
      ("response", .str "202 Accepted")],
    .obj [
      ("method", .str "POST"),
      ("path", .str "/internal/health-check"),
      ("description", .str "Internal health check endpoint for cloud load balancers."),
      ("auth", .str "none"),
      ("response", .str "200 OK")],
    .obj [
      ("method", .str "GET"),
      ("path", .str "/admin/binaries/tofu"),
      ("description", .str "List available OpenTofu binary versions"),
      ("auth", .str "bearer"),
      ("response", .str "list[TofuVersion]")],
    .obj [
      ("method", .str "POST"),
      ("path", .str "/admin/binaries/tofu"),
      ("description", .str "Download and register a new OpenTofu binary version"),
      ("auth", .str "bearer"),
      ("response", .str "TofuVersion")],
    .obj [
      ("method", .str "PUT"),
      ("path", .str "/admin/binaries/tofu/\x7bversion_id\x7d/activate"),
      ("description", .str "Activate a specific OpenTofu binary version"),
      ("auth", .str "bearer"),
      ("response", .str "200 OK")],
    .obj [
      ("method", .str "GET"),
      ("path", .str "/admin/binaries/gosling"),
      ("description", .str "List available Gosling binary versions"),
      ("auth", .str "bearer"),
      ("response", .str "list[GoslingVersion]")],
    .obj [
      ("method", .str "POST"),
      ("path", .str "/admin/binaries/gosling"),
      ("description", .str "Download and register a new Gosling binary version"),
      ("auth", .str "bearer"),
      ("response", .str "GoslingVersion")],
    .obj [
      ("method", .str "PUT"),
      ("path", .str "/admin/binaries/gosling/\x7bversion_id\x7d/activate"),
      ("description", .str "Activate a specific Gosling binary version"),
      ("auth", .str "bearer"),
      ("response", .str "200 OK")]]

/-- `MOTHERGOOSE_CELERY_TASKS` from src/MCP/data/mothergoose.py. -/
def MOTHERGOOSE_CELERY_TASKS : Json :=
  .arr [
    .obj [
      ("name", .str "sync_nest_config"),
      ("module", .str "tasks.git_sync"),
      ("queue", .str "mothergoose.git_sync"),
      ("description", .str "Clone/pull the Nest repo, parse all .fly files via Gosling CLI, upsert egg_configs/jobs/uf_config in DB, write sync_history record."),
      ("triggered_by", .arr [
        .str "POST /internal/sync-git",
        .str "YC Timer (5 min)",
        .str "AWS EventBridge (5 min)",
        .str "Nest push webhook"])],
    .obj [
      ("name", .str "process_webhook"),
      ("module", .str "tasks.webhooks"),
      ("queue", .str "mothergoose.webhooks"),
      ("description", .str "Handle a GitLab push/pipeline webhook: fetch EggConfig, resolve secrets, render Jinja2 templates, run tofu plan+apply, upsert Runner, write audit_log."),
      ("triggered_by", .arr [.str "POST /webhooks/gitlab"])],
    .obj [
      ("name", .str "deploy_runner"),
      ("module", .str "tasks.runners"),
      ("queue", .str "mothergoose.runners"),
      ("description", .str "Deploy a new runner for an egg using OpenTofu. Determines runner type (SERVERLESS/APEX/NADIR), renders templates, applies plan, stores DeploymentPlan."),
      ("triggered_by", .arr [.str "POST /eggs/\x7begg_name\x7d/deploy", .str "process_webhook"])],
    .obj [
      ("name", .str "terminate_runner"),
      ("module", .str "tasks.runners"),
      ("queue", .str "mothergoose.runners"),
      ("description", .str "Terminate a runner via OpenTofu destroy. Updates runner state to TERMINATED, writes audit_log."),
      ("triggered_by", .arr [.str "DELETE /runners/\x7brunner_id\x7d", .str "UglyFox lifecycle tasks"])],
    .obj [
      ("name", .str "deploy_serverless_runner"),
      ("module", .str "tasks.runners"),
      ("queue", .str "mothergoose.runners"),
      ("description", .str "Deploy a YC Serverless Container or AWS ECS Fargate runner. Handles container image, resource limits, and cloud-specific config."),
      ("triggered_by", .arr [.str "deploy_runner (when type=SERVERLESS)"])],
    .obj [
      ("name", .str "cleanup_serverless_runner"),
      ("module", .str "tasks.runners"),
      ("queue", .str "mothergoose.runners"),
      ("description", .str "Clean up a serverless runner after job completion. Removes container, updates state."),
      ("triggered_by", .arr [.str "enforce_serverless_timeout", .str "UglyFox pruning"])],
    .obj [
      ("name", .str "enforce_serverless_timeout"),
      ("module", .str "tasks.maintenance"),
      ("queue", .str "mothergoose.maintenance"),
      ("description", .str "Periodic task that finds serverless runners exceeding max runtime and triggers cleanup."),
      ("triggered_by", .arr [.str "Celery beat schedule"])],
    .obj [
      ("name", .str "cleanup_old_results"),
      ("module", .str "tasks.maintenance"),
      ("queue", .str "mothergoose.maintenance"),
      ("description", .str "Prune old Celery task results and expired sync_history records from the database."),
      ("triggered_by", .arr [.str "Celery beat schedule"])],
    .obj [
      ("name", .str "update_metrics"),
      ("module", .str "tasks.maintenance"),
      ("queue", .str "mothergoose.maintenance"),
      ("description", .str "Collect and publish runner/egg metrics to cloud monitoring (YC Monitoring / CloudWatch)."),
      ("triggered_by", .arr [.str "Celery beat schedule"])]]

/-- `MOTHERGOOSE_MODELS` from src/MCP/data/mothergoose.py. -/
def MOTHERGOOSE_MODELS : Json :=
  .obj [
    ("Runner", .obj [
      ("description", .str "Represents a deployed GitLab runner (VM or serverless container)."),
      ("fields", .obj [
        ("id", .obj [("type", .str "str"), ("description", .str "Unique runner ID (UUID)")]),
        ("egg_name", .obj [("type", .str "str"), ("description", .str "Name of the Egg that owns this runner")]),
        ("type", .obj [
          ("type", .str "RunnerType"),
          ("enum", .arr [.str "SERVERLESS", .str "APEX", .str "NADIR"]),
          ("description", .str "Runner deployment type")]),
        ("state", .obj [
          ("type", .str "RunnerState"),
          ("enum", .arr [.str "ACTIVE", .str "IDLE", .str "BUSY", .str "FAILED", .str "TERMINATED"]),
          ("description", .str "Current runner state")]),
        ("cloud_provider", .obj [("type", .str "CloudProvider"), ("enum", .arr [.str "YANDEX", .str "AWS"])]),
        ("region", .obj [("type", .str "str"), ("description", .str "Cloud region (e.g. ru-central1, us-east-1)")]),
        ("gitlab_runner_id", .obj [("type", .str "int"), ("description", .str "GitLab runner registration ID")]),
        ("deployed_from_commit", .obj [("type", .str "str"), ("description", .str "Nest repo commit SHA used for deployment")]),
        ("created_at", .obj [("type", .str "datetime")]),
        ("updated_at", .obj [("type", .str "datetime")]),
        ("last_heartbeat", .obj [
          ("type", .str "datetime"),
          ("description", .str "Last time UglyFox confirmed runner is alive")]),
        ("failure_count", .obj [
          ("type", .str "int"),
          ("description", .str "Consecutive failure count, used by UglyFox pruning")]),
        ("metadata", .obj [
          ("type", .str "dict"),
          ("description", .str "Cloud-specific metadata (instance ID, container ID, etc.)")])])]),
    ("EggConfig", .obj [
      ("description", .str "Parsed configuration for a single Egg or EggsBucket from the Nest repo."),
      ("fields", .obj [
        ("id", .obj [("type", .str "str"), ("description", .str "UUID")]),
        ("name", .obj [("type", .str "str"), ("description", .str "Egg name (directory name under Eggs/)")]),
        ("project_id", .obj [("type", .str "int"), ("description", .str "GitLab project ID (single egg)")]),
        ("group_id", .obj [("type", .str "int"), ("description", .str "GitLab group ID (eggsbucket)")]),
        ("config", .obj [("type", .str "dict"), ("description", .str "Full parsed .fly config as dict")]),
        ("git_commit", .obj [("type", .str "str"), ("description", .str "Nest commit SHA when this config was synced")]),
        ("git_repo_url_secret", .obj [("type", .str "str"), ("description", .str "Secret URI for the repo URL")]),
        ("gitlab_token_secret_uri", .obj [("type", .str "str"), ("description", .str "Secret URI for GitLab registration token")]),
        ("gitlab_webhook_secret_uri", .obj [("type", .str "str"), ("description", .str "Secret URI for webhook validation token")]),
        ("synced_at", .obj [("type", .str "datetime")]),
        ("created_at", .obj [("type", .str "datetime")]),
        ("updated_at", .obj [("type", .str "datetime")])])]),
    ("SyncHistory", .obj [
      ("description", .str "Record of a single Nest Git sync operation."),
      ("fields", .obj [
        ("id", .obj [("type", .str "str")]),
        ("git_commit", .obj [("type", .str "str")]),
        ("sync_type", .obj [("type", .str "str"), ("enum", .arr [.str "scheduled", .str "webhook", .str "manual"])]),
        ("status", .obj [("type", .str "SyncStatus"), ("enum", .arr [.str "SUCCESS", .str "FAILED"])]),
        ("changes_detected", .obj [("type", .str "int")]),
        ("eggs_synced", .obj [("type", .str "int")]),
        ("jobs_synced", .obj [("type", .str "int")]),
        ("uf_config_synced", .obj [("type", .str "bool")]),
        ("error_message", .obj [("type", .str "str | None")]),
        ("synced_at", .obj [("type", .str "datetime")]),
        ("duration_ms", .obj [("type", .str "int")])])]),
    ("DeploymentPlan", .obj [
      ("description", .str "Stored OpenTofu plan for a runner deployment, enabling rollback."),
      ("fields", .obj [
        ("id", .obj [("type", .str "str")]),
        ("egg_name", .obj [("type", .str "str")]),
        ("plan_type", .obj [("type", .str "str"), ("enum", .arr [.str "deploy", .str "terminate", .str "update"])]),
        ("config_hash", .obj [("type", .str "str"), ("description", .str "SHA256 of the rendered Jinja2 config")]),
        ("status", .obj [
          ("type", .str "DeploymentStatus"),
          ("enum", .arr [.str "PENDING", .str "APPLIED", .str "ROLLED_BACK", .str "FAILED"])]),
        ("plan_binary", .obj [("type", .str "bytes"), ("description", .str "Serialized OpenTofu plan binary")]),
        ("rollback_plan_id", .obj [("type", .str "str | None"), ("description", .str "ID of the plan to apply for rollback")]),
        ("created_at", .obj [("type", .str "datetime")]),
        ("applied_at", .obj [("type", .str "datetime | None")]),
        ("metadata", .obj [("type", .str "dict")])])]),
    ("AuditLog", .obj [
      ("description", .str "Immutable audit trail for all system actions."),
      ("fields", .obj [
        ("id", .obj [("type", .str "str")]),
        ("timestamp", .obj [("type", .str "datetime")]),
        ("actor", .obj [("type", .str "str"), ("description", .str "Service or user that performed the action")]),
        ("action", .obj [("type", .str "str"), ("description", .str "Action name (e.g. runner.deploy, egg.sync)")]),
        ("resource_type", .obj [("type", .str "str")]),
        ("resource_id", .obj [("type", .str "str")]),
        ("details", .obj [("type", .str "dict")])])])]

/-- `MOTHERGOOSE_SERVICES` from src/MCP/data/mothergoose.py. -/
def MOTHERGOOSE_SERVICES : Json :=
  .arr [
    .obj [
      ("name", .str "GitSyncService"),
      ("module", .str "services.git_sync_service"),
      ("description", .str "Clones/pulls the Nest repo via GitPython, delegates .fly parsing to FlyParserService, upserts results to DB."),
      ("methods", .arr [
        .str "sync_from_git(commit)",
        .str "parse_eggs(path)",
        .str "parse_jobs(path)",
        .str "parse_uf_config(path)"])],
    .obj [
      ("name", .str "FlyParserService"),
      ("module", .str "services.fly_parser"),
      ("description", .str "Invokes the Gosling CLI binary as a subprocess to parse .fly files into JSON dicts."),
      ("methods", .arr [
        .str "parse_egg(path)",
        .str "parse_job(path)",
        .str "parse_uf_config(path)",
        .str "_call_gosling_parse(path, type)"])],
    .obj [
      ("name", .str "SecretManager"),
      ("module", .str "services.secret_manager"),
      ("description", .str "Resolves secret URIs (yc-lockbox://, aws-sm://, vault://) to plaintext values. Uses SecretCache for TTL-based caching."),
      ("methods", .arr [.str "get_secret(uri)", .str "_yc_lockbox(uri)", .str "_aws_sm(uri)", .str "_vault(uri)"])],
    .obj [
      ("name", .str "RunnerOrchestrationService"),
      ("module", .str "services.runner_orchestration"),
      ("description", .str "Orchestrates runner lifecycle: determines type, calls OpenTofuConfiguration to deploy/terminate, stores DeploymentPlan."),
      ("methods", .arr [
        .str "deploy_runner(egg)",
        .str "terminate_runner(runner_id)",
        .str "determine_runner_type(egg)"])],
    .obj [
      ("name", .str "OpenTofuConfiguration"),
      ("module", .str "services.opentofu_config"),
      ("description", .str "Renders Jinja2 templates from templates/ directory, generates and applies OpenTofu plans via tofupy."),
      ("methods", .arr [.str "render_templates(settings)", .str "generate_plan()", .str "apply_plan(plan)"])],
    .obj [
      ("name", .str "OpenTofuBinary / OpenTofuDownloadGithub / OpenTofuDownloadFromOtherSource"),
      ("module", .str "services.opentofu_binary"),
      ("description", .str "Abstract base + concrete implementations for downloading and extracting OpenTofu binaries from GitHub releases or custom sources."),
      ("methods", .arr [.str "store_downloaded_bin()", .str "_download_and_extract(extract_to)"])],
    .obj [
      ("name", .str "GoslingBinaryManager"),
      ("module", .str "services.gosling_manager"),
      ("description", .str "Manages Gosling CLI binary versions: mounts from S3/object storage, verifies SHA256, activates a version for use by FlyParserService."),
      ("methods", .arr [
        .str "mount_s3_binaries()",
        .str "get_active_binary_path()",
        .str "verify_and_activate(version)"])],
    .obj [
      ("name", .str "EggService"),
      ("module", .str "services.egg_service"),
      ("description", .str "CRUD operations for EggConfig records. Used by routers and git sync."),
      ("methods", .arr [.str "get_egg(name)", .str "list_eggs()", .str "upsert_egg(config)", .str "delete_egg(name)"])],
    .obj [
      ("name", .str "DeploymentPlanService"),
      ("module", .str "services.deployment_plan_service"),
      ("description", .str "Creates, stores, applies, and rolls back OpenTofu deployment plans."),
      ("methods", .arr [.str "create_plan(egg_name, config)", .str "apply_plan(plan_id)", .str "rollback(plan_id)"])]]

/-- `MOTHERGOOSE_ENV_VARS` from src/MCP/data/mothergoose.py. -/
def MOTHERGOOSE_ENV_VARS : Json :=
  .arr [
    .obj [
      ("name", .str "MOTHERGOOSE_DB_BACKEND"),
      ("type", .str "str"),
      ("values", .arr [.str "ydb", .str "dynamodb"]),
      ("description", .str "Database backend to use")],
    .obj [
      ("name", .str "MOTHERGOOSE_YDB_ENDPOINT"),
      ("type", .str "str"),
      ("description", .str "YDB gRPC endpoint (e.g. grpcs://ydb.serverless.yandexcloud.net:2135)")],
    .obj [
      ("name", .str "MOTHERGOOSE_YDB_DATABASE"),
      ("type", .str "str"),
      ("description", .str "YDB database path")],
    .obj [
      ("name", .str "MOTHERGOOSE_DYNAMODB_TABLE_PREFIX"),
      ("type", .str "str"),
      ("description", .str "Prefix for DynamoDB table names")],
    .obj [
      ("name", .str "MOTHERGOOSE_AWS_REGION"),
      ("type", .str "str"),
      ("description", .str "AWS region for DynamoDB/SQS/Secrets Manager")],
    .obj [
      ("name", .str "MOTHERGOOSE_CELERY_BROKER_URL"),
      ("type", .str "str"),
      ("description", .str "Celery broker URL (SQS or YMQ endpoint)")],
    .obj [
      ("name", .str "MOTHERGOOSE_CELERY_RESULT_BACKEND"),
      ("type", .str "str"),
      ("description", .str "Celery result backend URL")],
    .obj [
      ("name", .str "MOTHERGOOSE_NEST_REPO_URL_SECRET"),
      ("type", .str "str"),
      ("description", .str "Secret URI for the Nest Git repo URL")],
    .obj [
      ("name", .str "MOTHERGOOSE_NEST_REPO_BRANCH"),
      ("type", .str "str"),
      ("default", .str "main"),
      ("description", .str "Nest repo branch to sync")],
    .obj [
      ("name", .str "MOTHERGOOSE_INTERNAL_SECRET_TOKEN"),
      ("type", .str "str"),
      ("description", .str "Token for /internal/* endpoints")],
    .obj [
      ("name", .str "MOTHERGOOSE_OPENTOFU_BINARY_PATH"),
      ("type", .str "str"),
      ("description", .str "Path to the active OpenTofu binary")],
    .obj [
      ("name", .str "MOTHERGOOSE_GOSLING_BINARY_PATH"),
      ("type", .str "str"),
      ("description", .str "Path to the active Gosling CLI binary")],
    .obj [
      ("name", .str "MOTHERGOOSE_SECRET_CACHE_TTL"),
      ("type", .str "int"),
      ("default", .int 300),
      ("description", .str "Secret cache TTL in seconds")],
    .obj [
      ("name", .str "MOTHERGOOSE_LOG_LEVEL"),
      ("type", .str "str"),
      ("default", .str "INFO"),
      ("values", .arr [.str "DEBUG", .str "INFO", .str "WARNING", .str "ERROR"])],
    .obj [
      ("name", .str "MOTHERGOOSE_YC_FOLDER_ID"),
      ("type", .str "str"),
      ("description", .str "Yandex Cloud folder ID for resource provisioning")],
    .obj [
      ("name", .str "MOTHERGOOSE_COMPUTE_MODULE_SOURCE"),
      ("type", .str "str"),
      ("description", .str "OpenTofu module source path or registry URL")]]

-- Datasets transcribed from src/MCP/data/uglyfox.py.

/-- `UGLYFOX_CELERY_TASKS` from src/MCP/data/uglyfox.py. -/
def UGLYFOX_CELERY_TASKS : Json :=
  .arr [
    .obj [
      ("name", .str "check_runner_health"),
      ("module", .str "tasks.health"),
      ("queue", .str "uglyfox.health"),
      ("schedule", .str "every 60 seconds"),
      ("description", .str "Polls all ACTIVE/IDLE/BUSY runners for heartbeat. Updates last_heartbeat and state. Increments failure_count on no response.")],
    .obj [
      ("name", .str "collect_runner_metrics"),
      ("module", .str "tasks.health"),
      ("queue", .str "uglyfox.health"),
      ("schedule", .str "every 5 minutes"),
      ("description", .str "Collects CPU/memory/job metrics from runners and publishes to cloud monitoring.")],
    .obj [
      ("name", .str "identify_unhealthy_runners"),
      ("module", .str "tasks.health"),
      ("queue", .str "uglyfox.health"),
      ("schedule", .str "every 2 minutes"),
      ("description", .str "Finds runners with failure_count exceeding threshold or stale heartbeat. Marks them FAILED and enqueues pruning.")],
    .obj [
      ("name", .str "manage_apex_nadir_pools"),
      ("module", .str "tasks.lifecycle"),
      ("queue", .str "uglyfox.lifecycle"),
      ("schedule", .str "every 5 minutes"),
      ("description", .str "Evaluates Apex/Nadir pool sizes per egg against UF config targets. Triggers promotions or demotions as needed.")],
    .obj [
      ("name", .str "promote_nadir_to_apex"),
      ("module", .str "tasks.lifecycle"),
      ("queue", .str "uglyfox.lifecycle"),
      ("description", .str "Promotes a NADIR (dormant) runner to APEX (active) state. Sends Celery task to MotherGoose to reconfigure the runner."),
      ("triggered_by", .arr [.str "manage_apex_nadir_pools"])],
    .obj [
      ("name", .str "demote_apex_to_nadir"),
      ("module", .str "tasks.lifecycle"),
      ("queue", .str "uglyfox.lifecycle"),
      ("description", .str "Demotes an APEX runner to NADIR state when pool is oversized or runner is idle beyond threshold."),
      ("triggered_by", .arr [.str "manage_apex_nadir_pools"])],
    .obj [
      ("name", .str "transition_runner_state"),
      ("module", .str "tasks.lifecycle"),
      ("queue", .str "uglyfox.lifecycle"),
      ("description", .str "Generic state machine transition for a runner. Validates allowed transitions and writes audit_log."),
      ("triggered_by", .arr [.str "promote_nadir_to_apex", .str "demote_apex_to_nadir", .str "prune_failed_runners"])],
    .obj [
      ("name", .str "evaluate_pruning_policies"),
      ("module", .str "tasks.pruning"),
      ("queue", .str "uglyfox.pruning"),
      ("schedule", .str "every 10 minutes"),
      ("description", .str "Reads UF/config.fly pruning rules from DB. Identifies runners that violate max_age, max_failures, or idle_timeout policies.")],
    .obj [
      ("name", .str "prune_failed_runners"),
      ("module", .str "tasks.pruning"),
      ("queue", .str "uglyfox.pruning"),
      ("description", .str "Terminates runners in FAILED state that exceed the failure threshold. Sends terminate_runner task to MotherGoose."),
      ("triggered_by", .arr [.str "evaluate_pruning_policies", .str "identify_unhealthy_runners"])],
    .obj [
      ("name", .str "prune_old_runners"),
      ("module", .str "tasks.pruning"),
      ("queue", .str "uglyfox.pruning"),
      ("description", .str "Terminates runners that exceed max_age_hours from UF config. Ensures runner fleet stays fresh."),
      ("triggered_by", .arr [.str "evaluate_pruning_policies"])],
    .obj [
      ("name", .str "terminate_runner"),
      ("module", .str "tasks.pruning"),
      ("queue", .str "uglyfox.pruning"),
      ("description", .str "Sends a terminate_runner Celery task to MotherGoose via SQS/YMQ. UglyFox does not call OpenTofu directly."),
      ("triggered_by", .arr [.str "prune_failed_runners", .str "prune_old_runners"])]]

/-- `UGLYFOX_CONFIG_SCHEMA` from src/MCP/data/uglyfox.py. -/
def UGLYFOX_CONFIG_SCHEMA : Json :=
  .obj [
    ("description", .str "Schema for UF/config.fly \u2014 UglyFox lifecycle and pruning configuration."),
    ("file_location", .str "Nest/UF/config.fly"),
    ("top_level_block", .str "uglyfox"),
    ("blocks", .obj [
      ("pruning", .obj [
        ("description", .str "Global pruning policies applied to all runners unless overridden per-egg."),
        ("attributes", .obj [
          ("max_age_hours", .obj [
            ("type", .str "number"),
            ("description", .str "Maximum runner age before forced termination")]),
          ("max_failures", .obj [("type", .str "number"), ("description", .str "Consecutive failure count before pruning")]),
          ("idle_timeout_minutes", .obj [
            ("type", .str "number"),
            ("description", .str "Minutes idle before APEX\u2192NADIR demotion")]),
          ("check_interval_seconds", .obj [
            ("type", .str "number"),
            ("default", .int 60),
            ("description", .str "Health check polling interval")])])]),
      ("runners_condition", .obj [
        ("description", .str "Per-egg overrides for pruning conditions."),
        ("attributes", .obj [
          ("egg_name", .obj [("type", .str "string"), ("description", .str "Target egg name")]),
          ("max_age_hours", .obj [("type", .str "number"), ("description", .str "Override global max_age_hours")]),
          ("max_failures", .obj [("type", .str "number"), ("description", .str "Override global max_failures")])])]),
      ("apex_pool", .obj [
        ("description", .str "Apex (active) runner pool configuration."),
        ("attributes", .obj [
          ("min_size", .obj [("type", .str "number"), ("description", .str "Minimum number of APEX runners to maintain")]),
          ("max_size", .obj [("type", .str "number"), ("description", .str "Maximum APEX runners allowed")]),
          ("scale_up_threshold", .obj [("type", .str "number"), ("description", .str "Job queue depth to trigger scale-up")])])]),
      ("nadir_pool", .obj [
        ("description", .str "Nadir (dormant/warm standby) runner pool configuration."),
        ("attributes", .obj [
          ("min_size", .obj [("type", .str "number"), ("description", .str "Minimum NADIR runners to keep warm")]),
          ("max_size", .obj [("type", .str "number"), ("description", .str "Maximum NADIR runners allowed")]),
          ("warmup_time_seconds", .obj [("type", .str "number"), ("description", .str "Expected time to promote NADIR\u2192APEX")])])])]),
    ("example", .str "\nuglyfox \x7b\n  pruning \x7b\n    max_age_hours          = 72\n    max_failures           = 5\n    idle_timeout_minutes   = 30\n    check_interval_seconds = 60\n  \x7d\n\n  apex_pool \x7b\n    min_size           = 1\n    max_size           = 10\n    scale_up_threshold = 5\n  \x7d\n\n  nadir_pool \x7b\n    min_size            = 0\n    max_size            = 5\n    warmup_time_seconds = 30\n  \x7d\n\n  runners_condition \x7b\n    egg_name     = \"my-project\"\n    max_failures = 3\n  \x7d\n\x7d\n")]

/-- `UGLYFOX_ENV_VARS` from src/MCP/data/uglyfox.py. -/
def UGLYFOX_ENV_VARS : Json :=
  .arr [
    .obj [
      ("name", .str "UGLYFOX_DB_BACKEND"),
      ("type", .str "str"),
      ("values", .arr [.str "ydb", .str "dynamodb"]),
      ("description", .str "Database backend")],
    .obj [
      ("name", .str "UGLYFOX_YDB_ENDPOINT"),
      ("type", .str "str"),
      ("description", .str "YDB gRPC endpoint")],
    .obj [
      ("name", .str "UGLYFOX_YDB_DATABASE"),
      ("type", .str "str"),
      ("description", .str "YDB database path")],
    .obj [
      ("name", .str "UGLYFOX_DYNAMODB_TABLE_PREFIX"),
      ("type", .str "str"),
      ("description", .str "DynamoDB table name prefix")],
    .obj [("name", .str "UGLYFOX_AWS_REGION"), ("type", .str "str"), ("description", .str "AWS region")],
    .obj [
      ("name", .str "UGLYFOX_CELERY_BROKER_URL"),
      ("type", .str "str"),
      ("description", .str "Celery broker URL (SQS or YMQ)")],
    .obj [
      ("name", .str "UGLYFOX_CELERY_RESULT_BACKEND"),
      ("type", .str "str"),
      ("description", .str "Celery result backend URL")],
    .obj [
      ("name", .str "UGLYFOX_MOTHERGOOSE_QUEUE"),
      ("type", .str "str"),
      ("description", .str "Queue name for sending tasks to MotherGoose")],
    .obj [
      ("name", .str "UGLYFOX_HEALTH_CHECK_INTERVAL"),
      ("type", .str "int"),
      ("default", .int 60),
      ("description", .str "Runner health check interval in seconds")],
    .obj [
      ("name", .str "UGLYFOX_LOG_LEVEL"),
      ("type", .str "str"),
      ("default", .str "INFO"),
      ("values", .arr [.str "DEBUG", .str "INFO", .str "WARNING", .str "ERROR"])],
    .obj [
      ("name", .str "UGLYFOX_YC_FOLDER_ID"),
      ("type", .str "str"),
      ("description", .str "Yandex Cloud folder ID")]]

-- Datasets transcribed from src/MCP/data/gosling.py.

/-- `GOSLING_COMMANDS` from src/MCP/data/gosling.py. -/
def GOSLING_COMMANDS : Json :=
  .arr [
    .obj [
      ("name", .str "init"),
      ("usage", .str "gosling init [flags]"),
      ("description", .str "Initialize a new Nest repository structure. Creates Eggs/, Jobs/, UF/, MG/ directories with starter .fly files."),
      ("flags", .arr [
        .obj [
          ("flag", .str "--name"),
          ("short", .str "-n"),
          ("type", .str "string"),
          ("description", .str "Nest repository name")],
        .obj [
          ("flag", .str "--cloud"),
          ("short", .str "-c"),
          ("type", .str "string"),
          ("values", .arr [.str "yandex", .str "aws", .str "both"]),
          ("description", .str "Target cloud provider(s)")],
        .obj [
          ("flag", .str "--output"),
          ("short", .str "-o"),
          ("type", .str "string"),
          ("default", .str "."),
          ("description", .str "Output directory")]]),
      ("example", .str "gosling init --name my-nest --cloud both")],
    .obj [
      ("name", .str "add egg"),
      ("usage", .str "gosling add egg <name> [flags]"),
      ("description", .str "Scaffold a new Egg config.fly under Eggs/<name>/. Prompts for runner type, cloud provider, and GitLab project ID."),
      ("flags", .arr [
        .obj [
          ("flag", .str "--type"),
          ("short", .str "-t"),
          ("type", .str "string"),
          ("values", .arr [.str "egg", .str "eggsbucket"]),
          ("default", .str "egg"),
          ("description", .str "Egg type")],
        .obj [
          ("flag", .str "--cloud"),
          ("short", .str "-c"),
          ("type", .str "string"),
          ("values", .arr [.str "yandex", .str "aws"]),
          ("description", .str "Cloud provider")],
        .obj [
          ("flag", .str "--runner-type"),
          ("type", .str "string"),
          ("values", .arr [.str "serverless", .str "apex", .str "nadir"]),
          ("description", .str "Runner deployment type")],
        .obj [
          ("flag", .str "--project-id"),
          ("type", .str "int"),
          ("description", .str "GitLab project ID (egg only)")],
        .obj [
          ("flag", .str "--group-id"),
          ("type", .str "int"),
          ("description", .str "GitLab group ID (eggsbucket only)")]]),
      ("example", .str "gosling add egg my-service --cloud yandex --runner-type serverless --project-id 12345")],
    .obj [
      ("name", .str "add job"),
      ("usage", .str "gosling add job <name> [flags]"),
      ("description", .str "Scaffold a new Job .fly file under Jobs/<name>.fly."),
      ("flags", .arr [
        .obj [
          ("flag", .str "--schedule"),
          ("short", .str "-s"),
          ("type", .str "string"),
          ("description", .str "Cron schedule expression")],
        .obj [
          ("flag", .str "--cloud"),
          ("short", .str "-c"),
          ("type", .str "string"),
          ("values", .arr [.str "yandex", .str "aws"]),
          ("description", .str "Cloud provider for the job runner")]]),
      ("example", .str "gosling add job rotate-secrets --schedule \x270 2 * * *\x27 --cloud aws")],
    .obj [
      ("name", .str "validate"),
      ("usage", .str "gosling validate [path] [flags]"),
      ("description", .str "Validate .fly files in the given path (or current directory). Checks syntax, required fields, type constraints, and secret URI formats."),
      ("flags", .arr [
        .obj [
          ("flag", .str "--path"),
          ("short", .str "-p"),
          ("type", .str "string"),
          ("default", .str "."),
          ("description", .str "Path to validate")],
        .obj [
          ("flag", .str "--strict"),
          ("type", .str "bool"),
          ("description", .str "Fail on warnings in addition to errors")],
        .obj [
          ("flag", .str "--format"),
          ("type", .str "string"),
          ("values", .arr [.str "text", .str "json"]),
          ("default", .str "text"),
          ("description", .str "Output format")]]),
      ("example", .str "gosling validate ./Eggs/my-service --format json"),
      ("exit_codes", .obj [("0", .str "valid"), ("1", .str "validation errors"), ("2", .str "parse error")])],
    .obj [
      ("name", .str "parse"),
      ("usage", .str "gosling parse <file> [flags]"),
      ("description", .str "Parse a single .fly file and output the result as JSON. Used internally by MotherGoose FlyParserService via subprocess."),
      ("flags", .arr [
        .obj [
          ("flag", .str "--type"),
          ("short", .str "-t"),
          ("type", .str "string"),
          ("values", .arr [.str "egg", .str "eggsbucket", .str "job", .str "uglyfox", .str "mothergoose"]),
          ("required", .bool true),
          ("description", .str "Block type to parse")],
        .obj [
          ("flag", .str "--output"),
          ("short", .str "-o"),
          ("type", .str "string"),
          ("values", .arr [.str "json", .str "pretty"]),
          ("default", .str "json"),
          ("description", .str "Output format")]]),
      ("example", .str "gosling parse Eggs/my-service/config.fly --type egg"),
      ("stdout", .str "JSON representation of the parsed block"),
      ("stderr", .str "Validation errors if any")],
    .obj [
      ("name", .str "deploy"),
      ("usage", .str "gosling deploy <egg-name> [flags]"),
      ("description", .str "Trigger a runner deployment for an egg via the MotherGoose API (POST /eggs/\x7begg_name\x7d/deploy)."),
      ("flags", .arr [
        .obj [
          ("flag", .str "--server"),
          ("short", .str "-s"),
          ("type", .str "string"),
          ("description", .str "MotherGoose API base URL")],
        .obj [
          ("flag", .str "--token"),
          ("type", .str "string"),
          ("description", .str "Bearer token for MotherGoose API auth")],
        .obj [
          ("flag", .str "--wait"),
          ("short", .str "-w"),
          ("type", .str "bool"),
          ("description", .str "Wait for deployment to complete")],
        .obj [
          ("flag", .str "--timeout"),
          ("type", .str "int"),
          ("default", .int 300),
          ("description", .str "Wait timeout in seconds")]]),
      ("example", .str "gosling deploy my-service --server https://mg.example.com --wait")],
    .obj [
      ("name", .str "rollback"),
      ("usage", .str "gosling rollback <egg-name> [flags]"),
      ("description", .str "Roll back the last deployment for an egg by applying the stored rollback plan via MotherGoose API."),
      ("flags", .arr [
        .obj [
          ("flag", .str "--server"),
          ("short", .str "-s"),
          ("type", .str "string"),
          ("description", .str "MotherGoose API base URL")],
        .obj [("flag", .str "--token"), ("type", .str "string"), ("description", .str "Bearer token")],
        .obj [
          ("flag", .str "--plan-id"),
          ("type", .str "string"),
          ("description", .str "Specific deployment plan ID to roll back to (defaults to last)")]]),
      ("example", .str "gosling rollback my-service --server https://mg.example.com")],
    .obj [
      ("name", .str "status"),
      ("usage", .str "gosling status [egg-name] [flags]"),
      ("description", .str "Show runner status for an egg (or all eggs) by querying the MotherGoose API."),
      ("flags", .arr [
        .obj [
          ("flag", .str "--server"),
          ("short", .str "-s"),
          ("type", .str "string"),
          ("description", .str "MotherGoose API base URL")],
        .obj [("flag", .str "--token"), ("type", .str "string"), ("description", .str "Bearer token")],
        .obj [
          ("flag", .str "--format"),
          ("type", .str "string"),
          ("values", .arr [.str "table", .str "json"]),
          ("default", .str "table"),
          ("description", .str "Output format")],
        .obj [
          ("flag", .str "--watch"),
          ("short", .str "-w"),
          ("type", .str "bool"),
          ("description", .str "Continuously poll and refresh status")]]),
      ("example", .str "gosling status my-service --server https://mg.example.com --format json")]]

/-- `FLY_LANGUAGE_REFERENCE` from src/MCP/data/gosling.py. -/
def FLY_LANGUAGE_REFERENCE : Json :=
  .obj [
    ("description", .str ".fly is an HCL-like DSL with stronger typing used to define all Polar Gosling configuration. Parsed by the Gosling CLI."),
    ("syntax_rules", .arr [
      .str "Block syntax: block_type \x27label\x27 \x7b ... \x7d or block_type \x7b ... \x7d",
      .str "Attribute syntax: key = value",
      .str "String values use double quotes",
      .str "Numbers are unquoted",
      .str "Booleans: true / false",
      .str "Lists: [item1, item2]",
      .str "Secret URIs are strings with scheme prefix: yc-lockbox://, aws-sm://, vault://",
      .str "Comments: # single line"]),
    ("type_system", .obj [
      ("string", .str "Double-quoted UTF-8 string"),
      ("number", .str "Integer or float"),
      ("bool", .str "true or false"),
      ("list(string)", .str "List of strings"),
      ("list(number)", .str "List of numbers"),
      ("secret_uri", .str "String matching yc-lockbox://, aws-sm://, or vault:// scheme"),
      ("cron", .str "Standard 5-field cron expression string"),
      ("duration", .str "String with unit suffix: 30s, 5m, 2h, 7d"),
      ("memory", .str "String with unit: 256MB, 1GB, 2048MB"),
      ("cpu", .str "Number of vCPUs (float allowed: 0.5, 1, 2)")]),
    ("block_types", .obj [
      ("egg", .obj [
        ("location", .str "Eggs/<name>/config.fly"),
        ("description", .str "Single managed GitLab project runner configuration."),
        ("required_attributes", .obj [
          ("gitlab_server", .obj [("type", .str "string"), ("description", .str "GitLab instance URL")]),
          ("project_id", .obj [("type", .str "number"), ("description", .str "GitLab project ID")]),
          ("gitlab_token_secret", .obj [("type", .str "secret_uri"), ("description", .str "Runner registration token secret")]),
          ("gitlab_webhook_secret", .obj [("type", .str "secret_uri"), ("description", .str "Webhook validation token secret")]),
          ("git_repo_url_secret", .obj [("type", .str "secret_uri"), ("description", .str "Repository URL secret")]),
          ("cloud_provider", .obj [
            ("type", .str "string"),
            ("values", .arr [.str "yandex", .str "aws"]),
            ("description", .str "Target cloud")]),
          ("region", .obj [("type", .str "string"), ("description", .str "Cloud region")]),
          ("runner_type", .obj [("type", .str "string"), ("values", .arr [.str "serverless", .str "apex", .str "nadir"])])]),
        ("optional_attributes", .obj [
          ("tags", .obj [("type", .str "list(string)"), ("description", .str "GitLab runner tags")]),
          ("cpu", .obj [("type", .str "cpu"), ("default", .str "1")]),
          ("memory", .obj [("type", .str "memory"), ("default", .str "512MB")]),
          ("max_concurrent_jobs", .obj [("type", .str "number"), ("default", .int 1)]),
          ("runner_image", .obj [("type", .str "string"), ("description", .str "Container image for the runner")]),
          ("environment", .obj [("type", .str "list(string)"), ("description", .str "Extra environment variables")])])]),
      ("eggsbucket", .obj [
        ("location", .str "Eggs/<name>/config.fly"),
        ("description", .str "Group of GitLab projects sharing a single runner configuration."),
        ("required_attributes", .obj [
          ("gitlab_server", .obj [("type", .str "string")]),
          ("group_id", .obj [("type", .str "number"), ("description", .str "GitLab group ID")]),
          ("gitlab_token_secret", .obj [("type", .str "secret_uri")]),
          ("gitlab_webhook_secret", .obj [("type", .str "secret_uri")]),
          ("cloud_provider", .obj [("type", .str "string"), ("values", .arr [.str "yandex", .str "aws"])]),
          ("region", .obj [("type", .str "string")]),
          ("runner_type", .obj [("type", .str "string"), ("values", .arr [.str "serverless", .str "apex", .str "nadir"])])]),
        ("optional_attributes", .obj [
          ("tags", .obj [("type", .str "list(string)")]),
          ("cpu", .obj [("type", .str "cpu")]),
          ("memory", .obj [("type", .str "memory")]),
          ("project_ids", .obj [
            ("type", .str "list(number)"),
            ("description", .str "Explicit project IDs within the group")])])]),
      ("job", .obj [
        ("location", .str "Jobs/<name>.fly"),
        ("description", .str "Internal self-management task run on a dedicated runner."),
        ("required_attributes", .obj [
          ("schedule", .obj [("type", .str "cron"), ("description", .str "Cron schedule for the job")]),
          ("script", .obj [("type", .str "string"), ("description", .str "Shell script or command to execute")]),
          ("cloud_provider", .obj [("type", .str "string"), ("values", .arr [.str "yandex", .str "aws"])]),
          ("region", .obj [("type", .str "string")])]),
        ("optional_attributes", .obj [
          ("runner_image", .obj [("type", .str "string")]),
          ("cpu", .obj [("type", .str "cpu")]),
          ("memory", .obj [("type", .str "memory")]),
          ("timeout", .obj [("type", .str "duration"), ("default", .str "1h")]),
          ("environment", .obj [("type", .str "list(string)")]),
          ("secrets", .obj [("type", .str "list(secret_uri)"), ("description", .str "Secrets to inject as env vars")])])]),
      ("uglyfox", .obj [
        ("location", .str "UF/config.fly"),
        ("description", .str "UglyFox lifecycle and pruning configuration."),
        ("nested_blocks", .arr [.str "pruning", .str "apex_pool", .str "nadir_pool", .str "runners_condition"])]),
      ("mothergoose", .obj [
        ("location", .str "MG/config.fly"),
        ("description", .str "MotherGoose infrastructure configuration: API Gateway, queues, triggers, containers."),
        ("nested_blocks", .arr [.str "api_gateway", .str "message_queue", .str "cloud_trigger", .str "container"])])]),
    ("validation_error_format", .obj [
      ("description", .str "Validation errors are returned as JSON when using --format json flag."),
      ("schema", .obj [
        ("file", .str "string \u2014 path to the .fly file"),
        ("errors", .arr [
          .obj [
            ("line", .str "number"),
            ("column", .str "number"),
            ("severity", .str "error | warning"),
            ("code", .str "string \u2014 error code (e.g. MISSING_REQUIRED, INVALID_TYPE, INVALID_SECRET_URI)"),
            ("message", .str "string \u2014 human-readable description"),
            ("attribute", .str "string \u2014 attribute name that failed")]])])])]

/-- `FLY_EXAMPLES` from src/MCP/data/gosling.py. -/
def FLY_EXAMPLES : Json :=
  .obj [
    ("egg_yandex_serverless", .str "\n# Eggs/my-service/config.fly\negg \"my-service\" \x7b\n  gitlab_server         = \"https://gitlab.com\"\n  project_id            = 12345\n  gitlab_token_secret   = \"yc-lockbox://abc123def456/runner-token\"\n  gitlab_webhook_secret = \"yc-lockbox://abc123def456/webhook-secret\"\n  git_repo_url_secret   = \"yc-lockbox://abc123def456/repo-url\"\n\n  cloud_provider = \"yandex\"\n  region         = \"ru-central1\"\n  runner_type    = \"serverless\"\n\n  tags   = [\"docker\", \"linux\", \"yandex\"]\n  cpu    = 1\n  memory = \"512MB\"\n  max_concurrent_jobs = 2\n\x7d\n"),
    ("eggsbucket_aws", .str "\n# Eggs/platform-team/config.fly\neggsbucket \"platform-team\" \x7b\n  gitlab_server         = \"https://gitlab.example.com\"\n  group_id              = 999\n  gitlab_token_secret   = \"aws-sm://prod/platform-runner-token/value\"\n  gitlab_webhook_secret = \"aws-sm://prod/platform-webhook-secret/value\"\n\n  cloud_provider = \"aws\"\n  region         = \"us-east-1\"\n  runner_type    = \"apex\"\n\n  tags       = [\"docker\", \"linux\", \"aws\"]\n  cpu        = 2\n  memory     = \"1GB\"\n  project_ids = [101, 102, 103]\n\x7d\n"),
    ("job_secret_rotation", .str "\n# Jobs/rotate-secrets.fly\njob \"rotate-secrets\" \x7b\n  schedule       = \"0 2 * * 0\"  # Every Sunday at 2am\n  cloud_provider = \"yandex\"\n  region         = \"ru-central1\"\n  runner_image   = \"registry.example.com/tools/secret-rotator:latest\"\n  cpu            = 0.5\n  memory         = \"256MB\"\n  timeout        = \"30m\"\n\n  script = <<-EOT\n    #!/bin/bash\n    set -euo pipefail\n    python3 /app/rotate.py --all\n  EOT\n\n  secrets = [\n    \"yc-lockbox://abc123/rotation-key\",\n  ]\n\x7d\n"),
    ("uglyfox_config", .str "\n# UF/config.fly\nuglyfox \x7b\n  pruning \x7b\n    max_age_hours          = 72\n    max_failures           = 5\n    idle_timeout_minutes   = 30\n    check_interval_seconds = 60\n  \x7d\n\n  apex_pool \x7b\n    min_size           = 1\n    max_size           = 10\n    scale_up_threshold = 5\n  \x7d\n\n  nadir_pool \x7b\n    min_size            = 0\n    max_size            = 5\n    warmup_time_seconds = 30\n  \x7d\n\n  runners_condition \x7b\n    egg_name     = \"my-service\"\n    max_failures = 3\n    max_age_hours = 24\n  \x7d\n\x7d\n"),
    ("mothergoose_config", .str "\n# MG/config.fly\nmothergoose \x7b\n  api_gateway \x7b\n    cloud_provider = \"yandex\"\n    region         = \"ru-central1\"\n    domain         = \"mg.example.com\"\n    tls             = true\n  \x7d\n\n  message_queue \x7b\n    cloud_provider = \"yandex\"\n    queue_name     = \"polar-gosling-tasks\"\n  \x7d\n\n  cloud_trigger \x7b\n    type     = \"timer\"\n    schedule = \"*/5 * * * *\"  # Every 5 minutes\n    target   = \"/internal/sync-git\"\n  \x7d\n\n  container \x7b\n    image  = \"registry.example.com/polar-gosling/mothergoose:latest\"\n    cpu    = 1\n    memory = \"512MB\"\n    min_instances = 1\n    max_instances = 5\n  \x7d\n\x7d\n")]

-- Datasets transcribed from src/MCP/data/compute_module.py.

/-- `COMPUTE_MODULE_VARIABLES` from src/MCP/data/compute_module.py. -/
def COMPUTE_MODULE_VARIABLES : Json :=
  .obj [
    ("aws", .arr [
      .obj [
        ("name", .str "create_aws_resources"),
        ("type", .str "bool"),
        ("default", .bool false),
        ("description", .str "Enable AWS resource creation")],
      .obj [
        ("name", .str "aws_runner_type"),
        ("type", .str "string"),
        ("values", .arr [.str "ec2", .str "ecs"]),
        ("description", .str "AWS runner deployment type: EC2 VM or ECS Fargate")],
      .obj [
        ("name", .str "aws_region"),
        ("type", .str "string"),
        ("description", .str "AWS region (e.g. us-east-1)")],
      .obj [
        ("name", .str "aws_instance_type"),
        ("type", .str "string"),
        ("default", .str "t3.medium"),
        ("description", .str "EC2 instance type (ec2 runner only)")],
      .obj [
        ("name", .str "aws_ami_ssm_param"),
        ("type", .str "string"),
        ("description", .str "SSM parameter path for the runner AMI ID")],
      .obj [
        ("name", .str "aws_subnet_id"),
        ("type", .str "string"),
        ("description", .str "VPC subnet ID for EC2/ECS placement")],
      .obj [
        ("name", .str "aws_security_group_ids"),
        ("type", .str "list(string)"),
        ("description", .str "Security group IDs to attach")],
      .obj [
        ("name", .str "aws_iam_instance_profile"),
        ("type", .str "string"),
        ("description", .str "IAM instance profile ARN for EC2")],
      .obj [
        ("name", .str "aws_ecs_cluster_arn"),
        ("type", .str "string"),
        ("description", .str "ECS cluster ARN (ecs runner only)")],
      .obj [
        ("name", .str "aws_ecs_task_cpu"),
        ("type", .str "number"),
        ("default", .int 512),
        ("description", .str "ECS task CPU units (256/512/1024/2048/4096)")],
      .obj [
        ("name", .str "aws_ecs_task_memory"),
        ("type", .str "number"),
        ("default", .int 1024),
        ("description", .str "ECS task memory in MiB")],
      .obj [
        ("name", .str "aws_container_image"),
        ("type", .str "string"),
        ("description", .str "Container image URI for ECS runner")],
      .obj [
        ("name", .str "aws_runner_name"),
        ("type", .str "string"),
        ("description", .str "GitLab runner name tag")],
      .obj [
        ("name", .str "aws_tags"),
        ("type", .str "map(string)"),
        ("default", .obj []),
        ("description", .str "Additional AWS resource tags")],
      .obj [
        ("name", .str "aws_key_pair_name"),
        ("type", .str "string"),
        ("default", .str ""),
        ("description", .str "EC2 key pair name for SSH access")],
      .obj [
        ("name", .str "aws_root_volume_size"),
        ("type", .str "number"),
        ("default", .int 20),
        ("description", .str "EC2 root EBS volume size in GB")]]),
    ("yandex_cloud", .arr [
      .obj [
        ("name", .str "create_yc_resources"),
        ("type", .str "bool"),
        ("default", .bool false),
        ("description", .str "Enable Yandex Cloud resource creation")],
      .obj [
        ("name", .str "yc_runner_type"),
        ("type", .str "string"),
        ("values", .arr [.str "vm", .str "serverless"]),
        ("description", .str "YC runner type: Compute VM or Serverless Container")],
      .obj [
        ("name", .str "yc_folder_id"),
        ("type", .str "string"),
        ("description", .str "Yandex Cloud folder ID")],
      .obj [
        ("name", .str "yc_zone"),
        ("type", .str "string"),
        ("default", .str "ru-central1-a"),
        ("description", .str "Availability zone")],
      .obj [("name", .str "yc_subnet_id"), ("type", .str "string"), ("description", .str "VPC subnet ID")],
      .obj [
        ("name", .str "yc_platform_id"),
        ("type", .str "string"),
        ("default", .str "standard-v3"),
        ("description", .str "VM platform (standard-v1/v2/v3)")],
      .obj [
        ("name", .str "yc_cores"),
        ("type", .str "number"),
        ("default", .int 2),
        ("description", .str "Number of vCPUs for VM")],
      .obj [
        ("name", .str "yc_memory"),
        ("type", .str "number"),
        ("default", .int 2),
        ("description", .str "RAM in GB for VM")],
      .obj [
        ("name", .str "yc_core_fraction"),
        ("type", .str "number"),
        ("default", .int 100),
        ("description", .str "CPU core fraction % (20/50/100)")],
      .obj [
        ("name", .str "yc_disk_size"),
        ("type", .str "number"),
        ("default", .int 20),
        ("description", .str "Boot disk size in GB")],
      .obj [
        ("name", .str "yc_disk_type"),
        ("type", .str "string"),
        ("default", .str "network-ssd"),
        ("description", .str "Disk type (network-hdd/network-ssd)")],
      .obj [
        ("name", .str "yc_image_family"),
        ("type", .str "string"),
        ("default", .str "ubuntu-2204-lts"),
        ("description", .str "OS image family")],
      .obj [
        ("name", .str "yc_container_image"),
        ("type", .str "string"),
        ("description", .str "Container image for Serverless Container")],
      .obj [
        ("name", .str "yc_serverless_memory"),
        ("type", .str "number"),
        ("default", .int 512),
        ("description", .str "Serverless Container memory in MB")],
      .obj [
        ("name", .str "yc_serverless_cores"),
        ("type", .str "number"),
        ("default", .int 1),
        ("description", .str "Serverless Container vCPU count")],
      .obj [
        ("name", .str "yc_service_account_id"),
        ("type", .str "string"),
        ("description", .str "Service account ID for the runner")],
      .obj [
        ("name", .str "yc_runner_name"),
        ("type", .str "string"),
        ("description", .str "Resource name prefix")],
      .obj [
        ("name", .str "yc_labels"),
        ("type", .str "map(string)"),
        ("default", .obj []),
        ("description", .str "Yandex Cloud resource labels")],
      .obj [
        ("name", .str "yc_ssh_public_key"),
        ("type", .str "string"),
        ("default", .str ""),
        ("description", .str "SSH public key for VM access")],
      .obj [
        ("name", .str "yc_user_data"),
        ("type", .str "string"),
        ("default", .str ""),
        ("description", .str "Cloud-init user data script")]]),
    ("common", .arr [
      .obj [
        ("name", .str "gitlab_runner_token"),
        ("type", .str "string"),
        ("sensitive", .bool true),
        ("description", .str "GitLab runner registration token")],
      .obj [
        ("name", .str "gitlab_server_url"),
        ("type", .str "string"),
        ("default", .str "https://gitlab.com"),
        ("description", .str "GitLab instance URL")],
      .obj [
        ("name", .str "runner_tags"),
        ("type", .str "list(string)"),
        ("default", .arr []),
        ("description", .str "GitLab runner tags")],
      .obj [
        ("name", .str "runner_concurrent"),
        ("type", .str "number"),
        ("default", .int 1),
        ("description", .str "Max concurrent jobs per runner")],
      .obj [
        ("name", .str "random_suffix_length"),
        ("type", .str "number"),
        ("default", .int 6),
        ("description", .str "Length of random suffix appended to resource names")]])]

/-- `COMPUTE_MODULE_OUTPUTS` from src/MCP/data/compute_module.py. -/
def COMPUTE_MODULE_OUTPUTS : Json :=
  .arr [
    .obj [
      ("name", .str "hostname"),
      ("type", .str "string"),
      ("description", .str "Public DNS hostname of the deployed runner. For EC2: public DNS name. For YC VM: FQDN. For serverless: container endpoint URL."),
      ("sensitive", .bool false)],
    .obj [
      ("name", .str "public_ip"),
      ("type", .str "string"),
      ("description", .str "Public IP address of the runner. Empty string for serverless runners that have no static IP."),
      ("sensitive", .bool false)],
    .obj [
      ("name", .str "private_ip"),
      ("type", .str "string"),
      ("description", .str "Private IP address within the VPC/subnet. Available for both VM and ECS task runners."),
      ("sensitive", .bool false)],
    .obj [
      ("name", .str "id"),
      ("type", .str "string"),
      ("description", .str "Cloud resource ID. EC2: instance ID (i-xxx). ECS: task ARN. YC VM: instance ID. YC Serverless: container ID."),
      ("sensitive", .bool false)]]

/-- `COMPUTE_MODULE_PROVIDERS` from src/MCP/data/compute_module.py. -/
def COMPUTE_MODULE_PROVIDERS : Json :=
  .obj [
    ("required_providers", .obj [
      ("yandex", .obj [
        ("source", .str "yandex-cloud/yandex"),
        ("version", .str ">= 0.170.0"),
        ("description", .str "Yandex Cloud provider for VM and Serverless Container resources")]),
      ("aws", .obj [
        ("source", .str "hashicorp/aws"),
        ("version", .str ">= 4.66"),
        ("description", .str "AWS provider for EC2 and ECS resources")]),
      ("random", .obj [
        ("source", .str "hashicorp/random"),
        ("version", .str ">= 3.4.3"),
        ("description", .str "Used to generate unique resource name suffixes")])]),
    ("terraform_required_version", .str ">= 1.3.5"),
    ("opentofu_compatible", .bool true),
    ("notes", .arr [
      .str "Both aws and yandex providers are always declared but only activated when create_aws_resources or create_yc_resources is true.",
      .str "The random provider generates a suffix appended to all resource names to avoid collisions.",
      .str "Provider credentials are expected via standard env vars: AWS_ACCESS_KEY_ID/AWS_SECRET_ACCESS_KEY or YC_TOKEN/YC_SERVICE_ACCOUNT_KEY_FILE."]),
    ("test_suites", .arr [
      .str "tests/tests_aws_ecs_base/",
      .str "tests/tests_aws_vm_base/",
      .str "tests/tests_yc_serverless_base/",
      .str "tests/tests_yc_vm_base/"])]

-- src/MCP/server.py line 34 imports SECRET_URI_SCHEMES, DATABASE_SCHEMA and
-- ARCHITECTURE_OVERVIEW from data.cross_cutting, but the repository's data package
-- has no module of that name (it holds mothergoose, uglyfox, gosling, compute_module
-- and kiro). The three values below stand in for the missing module's constants.

/-- Modelled from the spec: the dataset of the `get_secret_uri_schemes` tool.
The module `data/cross_cutting.py` that should define `SECRET_URI_SCHEMES` is missing
from the repository; the spec describes it only as a cross-cutting reference dataset
covering the yc-lockbox://, aws-sm:// and vault:// secret URI formats. -/
def SECRET_URI_SCHEMES : Json :=
  .obj [
    ("yc-lockbox", .obj [("format", .str "yc-lockbox://<secret-id>/<key>"), ("provider", .str "Yandex Lockbox")]),
    ("aws-sm", .obj [("format", .str "aws-sm://<secret-name>/<key>"), ("provider", .str "AWS Secrets Manager")]),
    ("vault", .obj [("format", .str "vault://<mount>/<path>#<key>"), ("provider", .str "HashiCorp Vault")])]

/-- Modelled from the spec: the dataset of the `get_database_schema` tool.
The module `data/cross_cutting.py` that should define `DATABASE_SCHEMA` is missing from
the repository; the spec describes it only as the persisted-schema reference dataset
(the catalog entry names the tables runners, egg_configs, sync_history, deployment_plans,
audit_logs, tofu_versions and gosling_version). -/
def DATABASE_SCHEMA : Json :=
  .obj [
    ("tables", .arr [
      .str "runners", .str "egg_configs", .str "sync_history", .str "deployment_plans",
      .str "audit_logs", .str "tofu_versions", .str "gosling_version"])]

/-- Modelled from the spec: the dataset of the `get_architecture_overview` tool.
The module `data/cross_cutting.py` that should define `ARCHITECTURE_OVERVIEW` is missing
from the repository; the spec describes it only as a high-level architecture overview
dataset (system flow, services, deployment mechanisms, cloud targets). -/
def ARCHITECTURE_OVERVIEW : Json :=
  .obj [
    ("services", .arr [.str "MotherGoose", .str "UglyFox", .str "Gosling CLI"]),
    ("cloud_targets", .arr [.str "Yandex Cloud", .str "AWS"])]

/-- The tool catalog `TOOLS` from src/MCP/server.py (17 descriptors, declaration order). -/
def TOOLS : List Tool := [
  ⟨"get_mothergoose_api_endpoints",
   "List all MotherGoose REST API endpoints with methods, paths, descriptions, and auth requirements.",
   .obj [("type", .str "object"), ("properties", .obj []), ("required", .arr [])]⟩,
  ⟨"get_mothergoose_celery_tasks",
   "List all MotherGoose Celery tasks with names, queues, priorities, and descriptions.",
   .obj [("type", .str "object"), ("properties", .obj []), ("required", .arr [])]⟩,
  ⟨"get_mothergoose_models",
   "Get Pydantic model schemas for Runner, EggConfig, SyncHistory, DeploymentPlan, AuditLog.",
   .obj [("type", .str "object"), ("properties", .obj []), ("required", .arr [])]⟩,
  ⟨"get_mothergoose_services",
   "List all MotherGoose service classes with their responsibilities and key methods.",
   .obj [("type", .str "object"), ("properties", .obj []), ("required", .arr [])]⟩,
  ⟨"get_mothergoose_env_vars",
   "Get all MOTHERGOOSE_* environment variable definitions with types and descriptions.",
   .obj [("type", .str "object"), ("properties", .obj []), ("required", .arr [])]⟩,
  ⟨"get_uglyfox_celery_tasks",
   "List all UglyFox Celery tasks: health checks, pruning, lifecycle management.",
   .obj [("type", .str "object"), ("properties", .obj []), ("required", .arr [])]⟩,
  ⟨"get_uglyfox_config_schema",
   "Get the UF/config.fly schema: pruning policies, runner conditions, Apex/Nadir pool rules.",
   .obj [("type", .str "object"), ("properties", .obj []), ("required", .arr [])]⟩,
  ⟨"get_uglyfox_env_vars",
   "Get all UGLYFOX_* environment variable definitions with types and descriptions.",
   .obj [("type", .str "object"), ("properties", .obj []), ("required", .arr [])]⟩,
  ⟨"get_gosling_commands",
   "Get all Gosling CLI commands with flags, usage patterns, and examples.",
   .obj [("type", .str "object"), ("properties", .obj []), ("required", .arr [])]⟩,
  ⟨"get_fly_language_reference",
   "Get the .fly language reference: block types, attributes, type system, and validation rules.",
   .obj [("type", .str "object"), ("properties", .obj []), ("required", .arr [])]⟩,
  ⟨"get_fly_examples",
   "Get example .fly files for egg, eggsbucket, job, uglyfox, and mothergoose blocks.",
   .obj [("type", .str "object"), ("properties", .obj []), ("required", .arr [])]⟩,
  ⟨"get_compute_module_variables",
   "Get all Terraform/OpenTofu input variables for the Compute Module (AWS + Yandex Cloud).",
   .obj [("type", .str "object"), ("properties", .obj []), ("required", .arr [])]⟩,
  ⟨"get_compute_module_outputs",
   "Get Compute Module output values: hostname, public_ip, private_ip, id.",
   .obj [("type", .str "object"), ("properties", .obj []), ("required", .arr [])]⟩,
  ⟨"get_compute_module_providers",
   "Get provider version constraints for the Compute Module (yandex, aws, random).",
   .obj [("type", .str "object"), ("properties", .obj []), ("required", .arr [])]⟩,
  ⟨"get_secret_uri_schemes",
   "Get secret URI scheme reference: yc-lockbox://, aws-sm://, vault:// formats and usage.",
   .obj [("type", .str "object"), ("properties", .obj []), ("required", .arr [])]⟩,
  ⟨"get_database_schema",
   "Get all YDB/DynamoDB table schemas: runners, egg_configs, sync_history, deployment_plans, audit_logs, tofu_versions, gosling_version.",
   .obj [("type", .str "object"), ("properties", .obj []), ("required", .arr [])]⟩,
  ⟨"get_architecture_overview",
   "Get a high-level architecture overview: system flow, services, deployment mechanisms, cloud targets.",
   .obj [("type", .str "object"), ("properties", .obj []), ("required", .arr [])]⟩
]

/-- The dispatch table `_DISPATCH` from src/MCP/server.py: tool name to bound dataset,
in the source's insertion order (a Python dict preserves it). -/
def _DISPATCH : List (String × Json) := [
  ("get_mothergoose_api_endpoints", MOTHERGOOSE_API_ENDPOINTS),
  ("get_mothergoose_celery_tasks", MOTHERGOOSE_CELERY_TASKS),
  ("get_mothergoose_models", MOTHERGOOSE_MODELS),
  ("get_mothergoose_services", MOTHERGOOSE_SERVICES),
  ("get_mothergoose_env_vars", MOTHERGOOSE_ENV_VARS),
  ("get_uglyfox_celery_tasks", UGLYFOX_CELERY_TASKS),
  ("get_uglyfox_config_schema", UGLYFOX_CONFIG_SCHEMA),
  ("get_uglyfox_env_vars", UGLYFOX_ENV_VARS),
  ("get_gosling_commands", GOSLING_COMMANDS),
  ("get_fly_language_reference", FLY_LANGUAGE_REFERENCE),
  ("get_fly_examples", FLY_EXAMPLES),
  ("get_compute_module_variables", COMPUTE_MODULE_VARIABLES),
  ("get_compute_module_outputs", COMPUTE_MODULE_OUTPUTS),
  ("get_compute_module_providers", COMPUTE_MODULE_PROVIDERS),
  ("get_secret_uri_schemes", SECRET_URI_SCHEMES),
  ("get_database_schema", DATABASE_SCHEMA),
  ("get_architecture_overview", ARCHITECTURE_OVERVIEW)
]

-- A generic structured-text (JSON) parser, used to state the round-trip property.

/-- JSON insignificant whitespace. -/
def isWs (c : Char) : Bool := c = ' ' || c = '\n' || c = '\t' || c = '\r'

/-- Drop leading insignificant whitespace. -/
def skipWs : List Char → List Char
  | [] => []
  | c :: cs => if isWs c then skipWs cs else c :: cs

/-- The numeric value of a hexadecimal digit character. -/
def hexVal (c : Char) : Option Nat :=
  if 48 ≤ c.toNat ∧ c.toNat ≤ 57 then some (c.toNat - 48)
  else if 97 ≤ c.toNat ∧ c.toNat ≤ 102 then some (c.toNat - 87)
  else if 65 ≤ c.toNat ∧ c.toNat ≤ 70 then some (c.toNat - 55)
  else none

/-- The single-character JSON escapes. -/
def escDecode (c : Char) : Option Char :=
  if c = '"' then some '"'
  else if c = '\\' then some '\\'
  else if c = '/' then some '/'
  else if c = 'b' then some (Char.ofNat 8)
  else if c = 'f' then some (Char.ofNat 12)
  else if c = 'n' then some '\n'
  else if c = 'r' then some '\r'
  else if c = 't' then some '\t'
  else none

/-- Read four hexadecimal digit characters and their combined value. -/
def parseHexQuad : List Char → Option (Nat × List Char)
  | h1 :: h2 :: h3 :: h4 :: rest =>
    match hexVal h1, hexVal h2, hexVal h3, hexVal h4 with
    | some a, some b, some c, some d => some (4096 * a + 256 * b + 16 * c + d, rest)
    | _, _, _, _ => none
  | _ => none

theorem parseHexQuad_length (cs : List Char) (n : Nat) (r : List Char)
    (h : parseHexQuad cs = some (n, r)) : r.length + 4 = cs.length := by
  match cs with
  | [] => simp [parseHexQuad] at h
  | [h1] => simp [parseHexQuad] at h
  | [h1, h2] => simp [parseHexQuad] at h
  | [h1, h2, h3] => simp [parseHexQuad] at h
  | h1 :: h2 :: h3 :: h4 :: rest =>
    simp only [parseHexQuad] at h
    split at h
    · simp only [Option.some.injEq, Prod.mk.injEq] at h
      obtain ⟨-, h2⟩ := h
      subst h2
      simp
    · exact absurd h (by simp)

/-- After a high surrogate: expect another escape holding the low surrogate. -/
def parseLowSurrogate : List Char → Option (Nat × List Char)
  | '\\' :: 'u' :: rest =>
    match parseHexQuad rest with
    | some (lo, rest2) => if 56320 ≤ lo ∧ lo ≤ 57343 then some (lo, rest2) else none
    | none => none
  | _ => none

theorem parseLowSurrogate_length (cs : List Char) (lo : Nat) (r : List Char)
    (h : parseLowSurrogate cs = some (lo, r)) : r.length + 6 = cs.length := by
  rw [parseLowSurrogate.eq_def] at h
  split at h
  · rename_i rest
    split at h
    · rename_i lo2 rest2 hq
      have := parseHexQuad_length rest lo2 rest2 hq
      split at h
      · simp only [Option.some.injEq, Prod.mk.injEq] at h
        obtain ⟨-, h2⟩ := h
        subst h2
        simp
        omega
      · exact absurd h (by simp)
    · exact absurd h (by simp)
  · exact absurd h (by simp)

/-- Decode one `\uXXXX` escape (the part after the backslash and `u`), combining
a UTF-16 surrogate pair into one character and rejecting lone surrogates. -/
def parseUEscape (cs : List Char) : Option (Char × List Char) :=
  match parseHexQuad cs with
  | some (code, rest) =>
    if 55296 ≤ code ∧ code ≤ 56319 then
      match parseLowSurrogate rest with
      | some (lo, rest2) =>
        some (Char.ofNat (65536 + (code - 55296) * 1024 + (lo - 56320)), rest2)
      | none => none
    else if 56320 ≤ code ∧ code ≤ 57343 then none
    else some (Char.ofNat code, rest)
  | none => none

theorem parseUEscape_length (cs : List Char) (ch : Char) (r : List Char)
    (h : parseUEscape cs = some (ch, r)) : r.length + 4 ≤ cs.length := by
  simp only [parseUEscape] at h
  split at h
  case h_2 => exact absurd h (by simp)
  case h_1 code rest hq =>
    have hq4 := parseHexQuad_length cs code rest hq
    split at h
    · split at h
      case h_1 lo rest2 hs =>
        have hs6 := parseLowSurrogate_length rest lo rest2 hs
        simp only [Option.some.injEq, Prod.mk.injEq] at h
        obtain ⟨-, h2⟩ := h
        subst h2
        omega
      case h_2 => exact absurd h (by simp)
    · split at h
      · exact absurd h (by simp)
      · simp only [Option.some.injEq, Prod.mk.injEq] at h
        obtain ⟨-, h2⟩ := h
        subst h2
        omega

/-- Decode a JSON string body up to and including its closing quote, handling the
short escapes, `\uXXXX`, and UTF-16 surrogate pairs. Returns the decoded characters
and the input remaining after the closing quote. -/
def parseStrChars : List Char → Option (List Char × List Char)
  | [] => none
  | c :: cs =>
    if c = '"' then some ([], cs)
    else if c = '\\' then
      match cs with
      | [] => none
      | e :: rest =>
        if e = 'u' then
          match h : parseUEscape rest with
          | some (ch, rest2) =>
            match parseStrChars rest2 with
            | some (s, r) => some (ch :: s, r)
            | none => none
          | none => none
        else
          match escDecode e with
          | some d =>
            match parseStrChars rest with
            | some (s, r) => some (d :: s, r)
            | none => none
          | none => none
    else
      match parseStrChars cs with
      | some (s, r) => some (c :: s, r)
      | none => none
termination_by cs => cs.length
decreasing_by
  · have := parseUEscape_length _ _ _ h
    simp
    omega
  · simp
    omega
  · simp

/-- Split off the longest leading run of decimal digits. -/
def takeDigits : List Char → List Char × List Char
  | [] => ([], [])
  | c :: cs =>
    if c.isDigit then
      let (ds, r) := takeDigits cs
      (c :: ds, r)
    else ([], c :: cs)

/-- The value of a string of decimal digits. -/
def digitsVal (ds : List Char) : Nat := ds.foldl (fun a c => 10 * a + (c.toNat - 48)) 0

mutual

/-- Fuel-bounded recursive-descent parser for one JSON value. Skips leading
whitespace, then dispatches on the first character; returns the parsed value and
the unconsumed remainder of the input. -/
def parseVal : Nat → List Char → Option (Json × List Char)
  | 0, _ => none
  | fuel + 1, cs =>
    match skipWs cs with
    | [] => none
    | c :: rest =>
      if c = 'n' then
        match rest with
        | 'u' :: 'l' :: 'l' :: r => some (.null, r)
        | _ => none
      else if c = 't' then
        match rest with
        | 'r' :: 'u' :: 'e' :: r => some (.bool true, r)
        | _ => none
      else if c = 'f' then
        match rest with
        | 'a' :: 'l' :: 's' :: 'e' :: r => some (.bool false, r)
        | _ => none
      else if c = '"' then
        match parseStrChars rest with
        | some (s, r) => some (.str (String.mk s), r)
        | none => none
      else if c = '[' then
        match skipWs rest with
        | [] => none
        | c0 :: r0 =>
          if c0 = ']' then some (.arr [], r0)
          else
            match parseVal fuel (c0 :: r0) with
            | some (v, r1) =>
              match parseArrTail fuel r1 with
              | some (vs, r2) => some (.arr (v :: vs), r2)
              | none => none
            | none => none
      else if c = lbrace then
        match skipWs rest with
        | [] => none
        | c0 :: r0 =>
          if c0 = rbrace then some (.obj [], r0)
          else
            match parseEntry fuel (c0 :: r0) with
            | some (e, r1) =>
              match parseObjTail fuel r1 with
              | some (es, r2) => some (.obj (e :: es), r2)
              | none => none
            | none => none
      else if c = '-' then
        match takeDigits rest with
        | ([], _) => none
        | (ds, r) => some (.int (-(digitsVal ds : Int)), r)
      else if c.isDigit then
        match takeDigits (c :: rest) with
        | (ds, r) => some (.int (digitsVal ds : Int), r)
      else none

/-- Parse one `"key": value` object member. -/
def parseEntry : Nat → List Char → Option ((String × Json) × List Char)
  | 0, _ => none
  | fuel + 1, cs =>
    match skipWs cs with
    | '"' :: rest =>
      match parseStrChars rest with
      | some (k, rest1) =>
        match skipWs rest1 with
        | ':' :: rest2 =>
          match parseVal fuel rest2 with
          | some (v, r) => some ((String.mk k, v), r)
          | none => none
        | _ => none
      | none => none
    | _ => none

/-- After an array element: either the closing bracket or a comma and further elements. -/
def parseArrTail : Nat → List Char → Option (List Json × List Char)
  | 0, _ => none
  | fuel + 1, cs =>
    match skipWs cs with
    | [] => none
    | c :: r =>
      if c = ']' then some ([], r)
      else if c = ',' then
        match parseVal fuel r with
        | some (v, r1) =>
          match parseArrTail fuel r1 with
          | some (vs, r2) => some (v :: vs, r2)
          | none => none
        | none => none
      else none

/-- After an object member: either the closing brace or a comma and further members. -/
def parseObjTail : Nat → List Char → Option (List (String × Json) × List Char)
  | 0, _ => none
  | fuel + 1, cs =>
    match skipWs cs with
    | [] => none
    | c :: r =>
      if c = rbrace then some ([], r)
      else if c = ',' then
        match parseEntry fuel r with
        | some (e, r1) =>
          match parseObjTail fuel r1 with
          | some (es, r2) => some (e :: es, r2)
          | none => none
        | none => none
      else none

end

/-- Parse a complete JSON document: one value, optionally surrounded by whitespace,
with nothing after it. The fuel `s.length + 1` always suffices (each unit of fuel
spent consumes at least one input character). -/
def parseJson (s : String) : Option Json :=
  match parseVal (s.data.length + 1) s.data with
  | some (j, rest) => if skipWs rest = [] then some j else none
  | none => none

-- Bridge lemmas between Char comparisons and Nat arithmetic.

theorem char_le_iff (a b : Char) : a ≤ b ↔ a.toNat ≤ b.toNat := by
  rw [Char.le_def, UInt32.le_def, BitVec.le_def]; rfl

theorem char_eq_iff (a b : Char) : a = b ↔ a.toNat = b.toNat := by
  constructor
  · exact fun h => congrArg Char.toNat h
  · intro h
    apply Char.ext
    exact UInt32.eq_of_toBitVec_eq (BitVec.eq_of_toNat_eq h)

theorem isDigit_iff (c : Char) : c.isDigit = true ↔ 48 ≤ c.toNat ∧ c.toNat ≤ 57 := by
  simp [Char.isDigit, char_le_iff]
  exact Iff.rfl

theorem char_valid (c : Char) : c.toNat < 55296 ∨ (57343 < c.toNat ∧ c.toNat < 1114112) := by
  rcases c.valid with h | h
  · exact Or.inl h
  · exact Or.inr h

theorem toNat_charOfNat (n : Nat) (h : n.isValidChar) : (Char.ofNat n).toNat = n := by
  simp [Char.ofNat, h]
  rfl

-- Decimal digit rendering and reading.

theorem digChar_toNat (d : Nat) (h : d < 10) : (digChar d).toNat = 48 + d := by
  rw [digChar, toNat_charOfNat]
  exact Or.inl (by omega)

theorem digChar_isDigit (d : Nat) (h : d < 10) : (digChar d).isDigit = true := by
  rw [isDigit_iff, digChar_toNat d h]
  omega

theorem natDigits_cons (n : Nat) : ∃ d t, natDigits n = d :: t ∧ d.isDigit = true := by
  induction n using Nat.strong_induction_on with
  | _ n ih =>
    by_cases h : n < 10
    · refine ⟨digChar n, [], ?_, digChar_isDigit n h⟩
      rw [natDigits, dif_pos h]
    · obtain ⟨d, t, hd, hdig⟩ := ih (n / 10) (Nat.div_lt_self (by omega) (by omega))
      refine ⟨d, t ++ [digChar (n % 10)], ?_, hdig⟩
      rw [natDigits, dif_neg h, hd]
      rfl

theorem natDigits_digits (n : Nat) : ∀ c ∈ natDigits n, c.isDigit = true := by
  induction n using Nat.strong_induction_on with
  | _ n ih =>
    intro c hc
    by_cases h : n < 10
    · rw [natDigits, dif_pos h] at hc
      simp at hc
      subst hc
      exact digChar_isDigit n h
    · rw [natDigits, dif_neg h] at hc
      rcases List.mem_append.mp hc with h1 | h1
      · exact ih (n / 10) (Nat.div_lt_self (by omega) (by omega)) c h1
      · simp at h1
        subst h1
        exact digChar_isDigit _ (Nat.mod_lt _ (by omega))

theorem digitsVal_append_one (ds : List Char) (d : Char) :
    digitsVal (ds ++ [d]) = 10 * digitsVal ds + (d.toNat - 48) := by
  simp [digitsVal, List.foldl_append]

theorem digitsVal_natDigits (n : Nat) : digitsVal (natDigits n) = n := by
  induction n using Nat.strong_induction_on with
  | _ n ih =>
    by_cases h : n < 10
    · rw [natDigits, dif_pos h]
      simp [digitsVal, digChar_toNat n h]
    · rw [natDigits, dif_neg h, digitsVal_append_one,
          ih (n / 10) (Nat.div_lt_self (by omega) (by omega)), digChar_toNat _ (Nat.mod_lt _ (by omega))]
      omega

/-- The input left after a serialized value never starts with a digit, so the
number parser cannot read past the value's end. -/
def restOk (cs : List Char) : Prop := ∀ c, cs.head? = some c → c.isDigit = false

theorem restOk_nil : restOk [] := by
  intro c h
  simp at h

theorem restOk_cons {c : Char} (h : c.isDigit = false) (cs : List Char) : restOk (c :: cs) := by
  intro c' h'
  simp at h'
  subst h'
  exact h

theorem takeDigits_stop (cs : List Char) (h : restOk cs) : takeDigits cs = ([], cs) := by
  cases cs with
  | nil => rfl
  | cons c r =>
    have hc := h c rfl
    simp [takeDigits, hc]

theorem takeDigits_append (ds rest : List Char) (hds : ∀ c ∈ ds, c.isDigit = true)
    (hr : restOk rest) : takeDigits (ds ++ rest) = (ds, rest) := by
  induction ds with
  | nil => simpa using takeDigits_stop rest hr
  | cons c cs ih =>
    have hc := hds c (by simp)
    have h2 := ih (fun c h => hds c (by simp [h]))
    simp only [List.cons_append, takeDigits, hc, if_true, List.append_eq, h2]

-- Hexadecimal escapes.

theorem hexVal_hexChar (d : Nat) (h : d < 16) : hexVal (hexChar d) = some d := by
  interval_cases d <;> rfl

-- One-step evaluation lemmas for the string-body parser.

theorem parseHexQuad_eval (h1 h2 h3 h4 : Char) (rest : List Char) (a b c d : Nat)
    (e1 : hexVal h1 = some a) (e2 : hexVal h2 = some b) (e3 : hexVal h3 = some c)
    (e4 : hexVal h4 = some d) :
    parseHexQuad (h1 :: h2 :: h3 :: h4 :: rest) = some (4096 * a + 256 * b + 16 * c + d, rest) := by
  simp [parseHexQuad, e1, e2, e3, e4]

theorem parseUEscape_bmp (h1 h2 h3 h4 : Char) (rest : List Char) (a b c d : Nat)
    (e1 : hexVal h1 = some a) (e2 : hexVal h2 = some b) (e3 : hexVal h3 = some c)
    (e4 : hexVal h4 = some d)
    (hno1 : ¬(55296 ≤ 4096 * a + 256 * b + 16 * c + d ∧ 4096 * a + 256 * b + 16 * c + d ≤ 56319))
    (hno2 : ¬(56320 ≤ 4096 * a + 256 * b + 16 * c + d ∧ 4096 * a + 256 * b + 16 * c + d ≤ 57343)) :
    parseUEscape (h1 :: h2 :: h3 :: h4 :: rest) =
      some (Char.ofNat (4096 * a + 256 * b + 16 * c + d), rest) := by
  simp only [parseUEscape, parseHexQuad_eval h1 h2 h3 h4 rest a b c d e1 e2 e3 e4]
  simp [hno1, hno2]

theorem parseLowSurrogate_eval (g1 g2 g3 g4 : Char) (rest : List Char) (a b c d : Nat)
    (f1 : hexVal g1 = some a) (f2 : hexVal g2 = some b) (f3 : hexVal g3 = some c)
    (f4 : hexVal g4 = some d)
    (hlo : 56320 ≤ 4096 * a + 256 * b + 16 * c + d ∧ 4096 * a + 256 * b + 16 * c + d ≤ 57343) :
    parseLowSurrogate ('\\' :: 'u' :: g1 :: g2 :: g3 :: g4 :: rest) =
      some (4096 * a + 256 * b + 16 * c + d, rest) := by
  rw [parseLowSurrogate.eq_def]
  simp [parseHexQuad_eval g1 g2 g3 g4 rest a b c d f1 f2 f3 f4, hlo]

theorem parseUEscape_pair (h1 h2 h3 h4 g1 g2 g3 g4 : Char) (rest : List Char)
    (a b c d a2 b2 c2 d2 : Nat)
    (e1 : hexVal h1 = some a) (e2 : hexVal h2 = some b) (e3 : hexVal h3 = some c)
    (e4 : hexVal h4 = some d) (f1 : hexVal g1 = some a2) (f2 : hexVal g2 = some b2)
    (f3 : hexVal g3 = some c2) (f4 : hexVal g4 = some d2)
    (hhi : 55296 ≤ 4096 * a + 256 * b + 16 * c + d ∧ 4096 * a + 256 * b + 16 * c + d ≤ 56319)
    (hlo : 56320 ≤ 4096 * a2 + 256 * b2 + 16 * c2 + d2 ∧
      4096 * a2 + 256 * b2 + 16 * c2 + d2 ≤ 57343) :
    parseUEscape
        (h1 :: h2 :: h3 :: h4 :: '\\' :: 'u' :: g1 :: g2 :: g3 :: g4 :: rest) =
      some (Char.ofNat (65536 + (4096 * a + 256 * b + 16 * c + d - 55296) * 1024 +
        (4096 * a2 + 256 * b2 + 16 * c2 + d2 - 56320)), rest) := by
  simp only [parseUEscape, parseHexQuad_eval h1 h2 h3 h4 _ a b c d e1 e2 e3 e4]
  simp [hhi, parseLowSurrogate_eval g1 g2 g3 g4 rest a2 b2 c2 d2 f1 f2 f3 f4 hlo]

theorem parseStr_close (rest : List Char) : parseStrChars ('"' :: rest) = some ([], rest) := by
  rw [parseStrChars.eq_def]
  simp +decide

theorem parseStr_plain (c : Char) (cs : List Char) (h1 : ¬(c = '"')) (h2 : ¬(c = '\\')) :
    parseStrChars (c :: cs) =
      match parseStrChars cs with
      | some (s, r) => some (c :: s, r)
      | none => none := by
  rw [parseStrChars.eq_def]
  simp [h1, h2]

theorem parseStr_esc (e : Char) (rest : List Char) (he : ¬(e = 'u')) :
    parseStrChars ('\\' :: e :: rest) =
      match escDecode e with
      | some d =>
        match parseStrChars rest with
        | some (s, r) => some (d :: s, r)
        | none => none
      | none => none := by
  rw [parseStrChars.eq_def]
  simp +decide [he]

theorem parseStr_u (rest : List Char) :
    parseStrChars ('\\' :: 'u' :: rest) =
      match parseUEscape rest with
      | some (ch, rest2) =>
        match parseStrChars rest2 with
        | some (s, r) => some (ch :: s, r)
        | none => none
      | none => none := by
  rw [parseStrChars.eq_def]
  simp +decide
  cases hpe : parseUEscape rest with
  | none => simp
  | some p =>
    cases p with
    | mk ch rest2 => simp


/-- Decoding a serialized string body recovers the original characters exactly. -/
theorem parseStr_round (s : List Char) :
    ∀ rest, parseStrChars (escString s ++ ('"' :: rest)) = some (s, rest) := by
  induction s with
  | nil =>
    intro rest
    simp [escString, parseStr_close]
  | cons c cs ih =>
    intro rest
    by_cases h1 : c = '"'
    · subst h1
      simp +decide [escString, escChar, parseStr_esc, escDecode, ih]
    · by_cases h2 : c = '\\'
      · subst h2
        simp +decide [escString, escChar, parseStr_esc, escDecode, ih]
      · by_cases h3 : c = Char.ofNat 8
        · subst h3
          simp +decide [escString, escChar, parseStr_esc, escDecode, ih]
        · by_cases h4 : c = Char.ofNat 12
          · subst h4
            simp +decide [escString, escChar, parseStr_esc, escDecode, ih]
          · by_cases h5 : c = '\n'
            · subst h5
              simp +decide [escString, escChar, parseStr_esc, escDecode, ih]
            · by_cases h6 : c = '\r'
              · subst h6
                simp +decide [escString, escChar, parseStr_esc, escDecode, ih]
              · by_cases h7 : c = '\t'
                · subst h7
                  simp +decide [escString, escChar, parseStr_esc, escDecode, ih]
                · by_cases h8 : c.toNat < 32
                  · have e1 := hexVal_hexChar (c.toNat / 4096 % 16) (by omega)
                    have e2 := hexVal_hexChar (c.toNat / 256 % 16) (by omega)
                    have e3 := hexVal_hexChar (c.toNat / 16 % 16) (by omega)
                    have e4 := hexVal_hexChar (c.toNat % 16) (by omega)
                    have hcode : 4096 * (c.toNat / 4096 % 16) + 256 * (c.toNat / 256 % 16) +
                        16 * (c.toNat / 16 % 16) + c.toNat % 16 = c.toNat := by omega
                    have hu := parseUEscape_bmp _ _ _ _ (escString cs ++ ('"' :: rest)) _ _ _ _
                      e1 e2 e3 e4 (by omega) (by omega)
                    rw [hcode] at hu
                    simp [escString, escChar, h1, h2, h3, h4, h5, h6, h7, h8, hex4,
                      parseStr_u, hu, Char.ofNat_toNat, ih]
                  · by_cases h9 : c.toNat ≤ 126
                    · simp [escString, escChar, h1, h2, h3, h4, h5, h6, h7, h8, h9,
                        parseStr_plain c _ h1 h2, ih]
                    · by_cases h10 : c.toNat < 65536
                      · have hval := char_valid c
                        have e1 := hexVal_hexChar (c.toNat / 4096 % 16) (by omega)
                        have e2 := hexVal_hexChar (c.toNat / 256 % 16) (by omega)
                        have e3 := hexVal_hexChar (c.toNat / 16 % 16) (by omega)
                        have e4 := hexVal_hexChar (c.toNat % 16) (by omega)
                        have hcode : 4096 * (c.toNat / 4096 % 16) + 256 * (c.toNat / 256 % 16) +
                            16 * (c.toNat / 16 % 16) + c.toNat % 16 = c.toNat := by omega
                        have hu := parseUEscape_bmp _ _ _ _ (escString cs ++ ('"' :: rest)) _ _ _ _
                          e1 e2 e3 e4 (by omega) (by omega)
                        rw [hcode] at hu
                        simp [escString, escChar, h1, h2, h3, h4, h5, h6, h7, h8, h9, h10, hex4,
                          parseStr_u, hu, Char.ofNat_toNat, ih]
                      · have hval := char_valid c
                        have e1 := hexVal_hexChar ((55296 + (c.toNat - 65536) / 1024) / 4096 % 16) (by omega)
                        have e2 := hexVal_hexChar ((55296 + (c.toNat - 65536) / 1024) / 256 % 16) (by omega)
                        have e3 := hexVal_hexChar ((55296 + (c.toNat - 65536) / 1024) / 16 % 16) (by omega)
                        have e4 := hexVal_hexChar ((55296 + (c.toNat - 65536) / 1024) % 16) (by omega)
                        have f1 := hexVal_hexChar ((56320 + (c.toNat - 65536) % 1024) / 4096 % 16) (by omega)
                        have f2 := hexVal_hexChar ((56320 + (c.toNat - 65536) % 1024) / 256 % 16) (by omega)
                        have f3 := hexVal_hexChar ((56320 + (c.toNat - 65536) % 1024) / 16 % 16) (by omega)
                        have f4 := hexVal_hexChar ((56320 + (c.toNat - 65536) % 1024) % 16) (by omega)
                        have hcodehi : 4096 * ((55296 + (c.toNat - 65536) / 1024) / 4096 % 16) +
                            256 * ((55296 + (c.toNat - 65536) / 1024) / 256 % 16) +
                            16 * ((55296 + (c.toNat - 65536) / 1024) / 16 % 16) +
                            (55296 + (c.toNat - 65536) / 1024) % 16 =
                            55296 + (c.toNat - 65536) / 1024 := by omega
                        have hcodelo : 4096 * ((56320 + (c.toNat - 65536) % 1024) / 4096 % 16) +
                            256 * ((56320 + (c.toNat - 65536) % 1024) / 256 % 16) +
                            16 * ((56320 + (c.toNat - 65536) % 1024) / 16 % 16) +
                            (56320 + (c.toNat - 65536) % 1024) % 16 =
                            56320 + (c.toNat - 65536) % 1024 := by omega
                        have hu := parseUEscape_pair _ _ _ _ _ _ _ _ (escString cs ++ ('"' :: rest))
                          _ _ _ _ _ _ _ _ e1 e2 e3 e4 f1 f2 f3 f4
                          (by constructor <;> omega) (by constructor <;> omega)
                        rw [hcodehi, hcodelo] at hu
                        have hcomb : 65536 + (55296 + (c.toNat - 65536) / 1024 - 55296) * 1024 +
                            (56320 + (c.toNat - 65536) % 1024 - 56320) = c.toNat := by omega
                        rw [hcomb] at hu
                        simp [escString, escChar, h1, h2, h3, h4, h5, h6, h7, h8, h9, h10, hex4,
                          parseStr_u, hu, Char.ofNat_toNat, ih]

-- Whitespace handling.

theorem skipWs_not (c : Char) (cs : List Char) (h : isWs c = false) :
    skipWs (c :: cs) = c :: cs := by
  simp [skipWs, h]

theorem skipWs_ws (c : Char) (cs : List Char) (h : isWs c = true) :
    skipWs (c :: cs) = skipWs cs := by
  simp [skipWs, h]

theorem skipWs_replicate (m : Nat) (cs : List Char) :
    skipWs (List.replicate m ' ' ++ cs) = skipWs cs := by
  induction m with
  | zero => simp
  | succ n ih =>
    rw [List.replicate_succ, List.cons_append, skipWs_ws _ _ (by decide)]
    exact ih

theorem skipWs_indent (k : Nat) (cs : List Char) : skipWs (indentOf k ++ cs) = skipWs cs :=
  skipWs_replicate (2 * k) cs

-- Head-character facts for serialized values.

theorem isWs_false_of_digit (c : Char) (h : c.isDigit = true) : isWs c = false := by
  cases hw : isWs c
  · rfl
  · exfalso
    simp [isWs] at hw
    rw [isDigit_iff] at h
    rcases hw with ((e | e) | e) | e <;> (subst e; revert h; decide)

theorem ne_of_digit (c x : Char) (h : c.isDigit = true) (hx : x.isDigit = false) : ¬(c = x) := by
  intro e
  subst e
  rw [h] at hx
  exact absurd hx (by simp)

-- One-step evaluation lemmas for the value parser.

theorem parseVal_null (fuel : Nat) (rest : List Char) :
    parseVal (fuel + 1) ('n' :: 'u' :: 'l' :: 'l' :: rest) = some (.null, rest) := by
  rw [parseVal.eq_def]
  have hs := skipWs_not 'n' ('u' :: 'l' :: 'l' :: rest) (by decide)
  simp +decide [hs]

theorem parseVal_true (fuel : Nat) (rest : List Char) :
    parseVal (fuel + 1) ('t' :: 'r' :: 'u' :: 'e' :: rest) = some (.bool true, rest) := by
  rw [parseVal.eq_def]
  have hs := skipWs_not 't' ('r' :: 'u' :: 'e' :: rest) (by decide)
  simp +decide [hs]

theorem parseVal_false (fuel : Nat) (rest : List Char) :
    parseVal (fuel + 1) ('f' :: 'a' :: 'l' :: 's' :: 'e' :: rest) = some (.bool false, rest) := by
  rw [parseVal.eq_def]
  have hs := skipWs_not 'f' ('a' :: 'l' :: 's' :: 'e' :: rest) (by decide)
  simp +decide [hs]

theorem parseVal_str (fuel : Nat) (rest : List Char) :
    parseVal (fuel + 1) ('"' :: rest) =
      match parseStrChars rest with
      | some (s, r) => some (.str (String.mk s), r)
      | none => none := by
  rw [parseVal.eq_def]
  have hs := skipWs_not '"' rest (by decide)
  simp +decide [hs]

theorem parseVal_arr (fuel : Nat) (rest : List Char) :
    parseVal (fuel + 1) ('[' :: rest) =
      match skipWs rest with
      | [] => none
      | c0 :: r0 =>
        if c0 = ']' then some (.arr [], r0)
        else
          match parseVal fuel (c0 :: r0) with
          | some (v, r1) =>
            match parseArrTail fuel r1 with
            | some (vs, r2) => some (.arr (v :: vs), r2)
            | none => none
          | none => none := by
  rw [parseVal.eq_def]
  have hs := skipWs_not '[' rest (by decide)
  simp +decide [hs]

theorem parseVal_obj (fuel : Nat) (rest : List Char) :
    parseVal (fuel + 1) (lbrace :: rest) =
      match skipWs rest with
      | [] => none
      | c0 :: r0 =>
        if c0 = rbrace then some (.obj [], r0)
        else
          match parseEntry fuel (c0 :: r0) with
          | some (e, r1) =>
            match parseObjTail fuel r1 with
            | some (es, r2) => some (.obj (e :: es), r2)
            | none => none
          | none => none := by
  rw [parseVal.eq_def]
  have hs := skipWs_not lbrace rest (by decide)
  simp +decide [hs]

theorem parseVal_digit (fuel : Nat) (c : Char) (rest : List Char) (hc : c.isDigit = true) :
    parseVal (fuel + 1) (c :: rest) =
      some (.int (digitsVal (takeDigits (c :: rest)).1), (takeDigits (c :: rest)).2) := by
  rw [parseVal.eq_def]
  have hs := skipWs_not c rest (isWs_false_of_digit c hc)
  have n1 := ne_of_digit c 'n' hc (by decide)
  have n2 := ne_of_digit c 't' hc (by decide)
  have n3 := ne_of_digit c 'f' hc (by decide)
  have n4 := ne_of_digit c '"' hc (by decide)
  have n5 := ne_of_digit c '[' hc (by decide)
  have n6 := ne_of_digit c lbrace hc (by decide)
  have n7 := ne_of_digit c '-' hc (by decide)
  simp +decide [hs, n1, n2, n3, n4, n5, n6, n7, hc]

theorem parseVal_neg (fuel : Nat) (rest : List Char) :
    parseVal (fuel + 1) ('-' :: rest) =
      match takeDigits rest with
      | ([], _) => none
      | (ds, r) => some (.int (-(digitsVal ds : Int)), r) := by
  rw [parseVal.eq_def]
  have hs := skipWs_not '-' rest (by decide)
  simp +decide [hs]

theorem parseEntry_step (fuel : Nat) (rest : List Char) :
    parseEntry (fuel + 1) ('"' :: rest) =
      match parseStrChars rest with
      | some (k, rest1) =>
        match skipWs rest1 with
        | ':' :: rest2 =>
          match parseVal fuel rest2 with
          | some (v, r) => some ((String.mk k, v), r)
          | none => none
        | _ => none
      | none => none := by
  rw [parseEntry.eq_def]
  have hs := skipWs_not '"' rest (by decide)
  simp +decide [hs]

theorem parseArrTail_close (fuel : Nat) (cs rest : List Char) (h : skipWs cs = ']' :: rest) :
    parseArrTail (fuel + 1) cs = some ([], rest) := by
  rw [parseArrTail.eq_def]
  simp +decide [h]

theorem parseArrTail_comma (fuel : Nat) (cs r : List Char) (h : skipWs cs = ',' :: r) :
    parseArrTail (fuel + 1) cs =
      match parseVal fuel r with
      | some (v, r1) =>
        match parseArrTail fuel r1 with
        | some (vs, r2) => some (v :: vs, r2)
        | none => none
      | none => none := by
  rw [parseArrTail.eq_def]
  simp +decide [h]

theorem parseObjTail_close (fuel : Nat) (cs rest : List Char) (h : skipWs cs = rbrace :: rest) :
    parseObjTail (fuel + 1) cs = some ([], rest) := by
  rw [parseObjTail.eq_def]
  simp +decide [h]

theorem parseObjTail_comma (fuel : Nat) (cs r : List Char) (h : skipWs cs = ',' :: r) :
    parseObjTail (fuel + 1) cs =
      match parseEntry fuel r with
      | some (e, r1) =>
        match parseObjTail fuel r1 with
        | some (es, r2) => some (e :: es, r2)
        | none => none
      | none => none := by
  rw [parseObjTail.eq_def]
  simp +decide [h]

-- Fuel accounting: how much parser fuel a serialized value can consume.

mutual

/-- An upper bound on the recursion depth the parser spends on one value. -/
def needV : Json → Nat
  | .null => 1
  | .bool _ => 1
  | .int _ => 1
  | .str _ => 1
  | .arr [] => 1
  | .arr (x :: xs) => 1 + needV x + needA xs
  | .obj [] => 1
  | .obj (e :: es) => 1 + needEnt e + needO es

/-- Fuel bound for one object member. -/
def needEnt : String × Json → Nat
  | (_, v) => 1 + needV v

/-- Fuel bound for an array tail. -/
def needA : List Json → Nat
  | [] => 1
  | x :: xs => 1 + needV x + needA xs

/-- Fuel bound for an object tail. -/
def needO : List (String × Json) → Nat
  | [] => 1
  | e :: es => 1 + needEnt e + needO es

end

theorem needV_pos (j : Json) : 1 ≤ needV j := by
  cases j with
  | arr xs => cases xs <;> simp [needV] <;> omega
  | obj es => cases es <;> simp [needV] <;> omega
  | null => simp [needV]
  | bool b => simp [needV]
  | int n => simp [needV]
  | str s => simp [needV]

theorem needEnt_pos (e : String × Json) : 1 ≤ needEnt e := by
  cases e
  simp [needEnt]

theorem needA_pos (xs : List Json) : 1 ≤ needA xs := by
  cases xs <;> simp [needA] <;> omega

theorem needO_pos (es : List (String × Json)) : 1 ≤ needO es := by
  cases es <;> simp [needO] <;> omega

/-- Induction over `Json` with hypotheses for every array element and object value. -/
def Json.myInduction (P : Json → Prop)
    (h1 : P .null) (h2 : ∀ b, P (.bool b)) (h3 : ∀ n, P (.int n)) (h4 : ∀ s, P (.str s))
    (h5 : ∀ xs, (∀ x, x ∈ xs → P x) → P (.arr xs))
    (h6 : ∀ es, (∀ e, e ∈ es → P e.2) → P (.obj es)) : ∀ j, P j
  | .null => h1
  | .bool b => h2 b
  | .int n => h3 n
  | .str s => h4 s
  | .arr xs => h5 xs (fun x hx =>
      have : sizeOf x < sizeOf (Json.arr xs) := by
        have := List.sizeOf_lt_of_mem hx
        simp only [Json.arr.sizeOf_spec]
        omega
      Json.myInduction P h1 h2 h3 h4 h5 h6 x)
  | .obj es => h6 es (fun e he =>
      have : sizeOf e.2 < sizeOf (Json.obj es) := by
        have hm := List.sizeOf_lt_of_mem he
        have he2 : sizeOf e.2 < sizeOf e := by
          cases e with
          | mk a b => simp
        simp only [Json.obj.sizeOf_spec]
        omega
      Json.myInduction P h1 h2 h3 h4 h5 h6 e.2)
termination_by j => sizeOf j
decreasing_by
  · exact this
  · exact this

theorem needA_le_len (l : List Json)
    (H : ∀ x, x ∈ l → ∀ k, needV x ≤ (dumpsV k x).length) :
    ∀ k, needA l ≤ (dumpsArrTail k l).length + 1 := by
  induction l with
  | nil =>
    intro k
    simp [needA, dumpsArrTail]
  | cons y ys ih =>
    intro k
    have hy := H y (by simp) k
    have hys := ih (fun z hz k' => H z (by simp [hz]) k') k
    simp only [needA, dumpsArrTail, List.length_cons, List.length_append, indentOf,
      List.length_replicate] at *
    omega

theorem needEnt_le_len (e : String × Json)
    (H : ∀ k, needV e.2 ≤ (dumpsV k e.2).length) :
    ∀ k, needEnt e ≤ (dumpsEntry k e).length := by
  intro k
  cases e with
  | mk key v =>
    have hv := H k
    simp only [needEnt, dumpsEntry, List.length_cons, List.length_append] at *
    omega

theorem needO_le_len (l : List (String × Json))
    (H : ∀ e, e ∈ l → ∀ k, needV e.2 ≤ (dumpsV k e.2).length) :
    ∀ k, needO l ≤ (dumpsObjTail k l).length + 1 := by
  induction l with
  | nil =>
    intro k
    simp [needO, dumpsObjTail]
  | cons y ys ih =>
    intro k
    have hy := needEnt_le_len y (H y (by simp)) k
    have hys := ih (fun z hz k' => H z (by simp [hz]) k') k
    simp only [needO, dumpsObjTail, List.length_cons, List.length_append, indentOf,
      List.length_replicate] at *
    omega

theorem need_le_len (j : Json) : ∀ k, needV j ≤ (dumpsV k j).length := by
  induction j using Json.myInduction with
  | h1 => intro k; simp [needV, dumpsV]
  | h2 b => intro k; cases b <;> simp [needV, dumpsV]
  | h3 n =>
    intro k
    have h1 : 1 ≤ (intDigits n).length := by
      cases n with
      | ofNat m =>
        obtain ⟨d, t, hd, -⟩ := natDigits_cons m
        simp [intDigits, hd]
      | negSucc m => simp [intDigits]
    simpa [needV, dumpsV] using h1
  | h4 s => intro k; simp [needV, dumpsV]
  | h5 xs ih =>
    intro k
    cases xs with
    | nil => simp [needV, dumpsV]
    | cons x xs' =>
      have hx := ih x (by simp) (k + 1)
      have hA := needA_le_len xs' (fun z hz k' => ih z (by simp [hz]) k') (k + 1)
      simp only [needV, dumpsV, List.length_cons, List.length_append, indentOf,
        List.length_replicate] at *
      omega
  | h6 es ih =>
    intro k
    cases es with
    | nil => simp [needV, dumpsV]
    | cons e es' =>
      have he := needEnt_le_len e (fun k' => ih e (by simp) k') (k + 1)
      have hO := needO_le_len es' (fun z hz k' => ih z (by simp [hz]) k') (k + 1)
      simp only [needV, dumpsV, List.length_cons, List.length_append, indentOf,
        List.length_replicate] at *
      omega

/-- Every serialized value starts with a non-whitespace character that is not a
closing bracket, closing brace, or comma. -/
theorem dumpsV_shape (k : Nat) (j : Json) :
    ∃ c t, dumpsV k j = c :: t ∧ isWs c = false ∧ ¬(c = ']') ∧ ¬(c = rbrace) ∧ ¬(c = ',') := by
  cases j with
  | null => exact ⟨'n', ['u', 'l', 'l'], by simp [dumpsV], by decide, by decide, by decide, by decide⟩
  | bool b =>
    cases b with
    | true => exact ⟨'t', ['r', 'u', 'e'], by simp [dumpsV], by decide, by decide, by decide, by decide⟩
    | false =>
      exact ⟨'f', ['a', 'l', 's', 'e'], by simp [dumpsV], by decide, by decide, by decide, by decide⟩
  | int n =>
    cases n with
    | ofNat m =>
      obtain ⟨d, t, hd, hdig⟩ := natDigits_cons m
      exact ⟨d, t, by simp [dumpsV, intDigits, hd], isWs_false_of_digit d hdig,
        ne_of_digit d ']' hdig (by decide), ne_of_digit d rbrace hdig (by decide),
        ne_of_digit d ',' hdig (by decide)⟩
    | negSucc m =>
      exact ⟨'-', natDigits (m + 1), by simp [dumpsV, intDigits], by decide, by decide,
        by decide, by decide⟩
  | str s =>
    exact ⟨'"', escString s.data ++ ['"'], by simp [dumpsV], by decide, by decide,
      by decide, by decide⟩
  | arr xs =>
    cases xs with
    | nil => exact ⟨'[', [']'], by simp [dumpsV], by decide, by decide, by decide, by decide⟩
    | cons x xs' =>
      exact ⟨'[', '\n' :: (indentOf (k + 1) ++ (dumpsV (k + 1) x ++ (dumpsArrTail (k + 1) xs' ++
        ('\n' :: (indentOf k ++ [']']))))), by simp [dumpsV], by decide, by decide,
        by decide, by decide⟩
  | obj es =>
    cases es with
    | nil => exact ⟨lbrace, [rbrace], by simp [dumpsV], by decide, by decide, by decide, by decide⟩
    | cons e es' =>
      exact ⟨lbrace, '\n' :: (indentOf (k + 1) ++ (dumpsEntry (k + 1) e ++ (dumpsObjTail (k + 1) es' ++
        ('\n' :: (indentOf k ++ [rbrace]))))), by simp [dumpsV], by decide, by decide,
        by decide, by decide⟩

theorem parseVal_ws_drop (f : Nat) (c : Char) (cs : List Char) (h : isWs c = true) :
    parseVal f (c :: cs) = parseVal f cs := by
  cases f with
  | zero => simp [parseVal]
  | succ f' =>
    have hs := skipWs_ws c cs h
    conv_lhs => rw [parseVal.eq_def]
    conv_rhs => rw [parseVal.eq_def]
    simp only [hs]

theorem parseVal_ws_append (f : Nat) (ws cs : List Char) (h : ∀ c, c ∈ ws → isWs c = true) :
    parseVal f (ws ++ cs) = parseVal f cs := by
  induction ws with
  | nil => simp
  | cons c w ih =>
    rw [List.cons_append, parseVal_ws_drop f c _ (h c (by simp)),
      ih (fun c hc => h c (by simp [hc]))]

theorem indent_ws (k : Nat) : ∀ c, c ∈ indentOf k → isWs c = true := by
  intro c hc
  have := List.eq_of_mem_replicate hc
  subst this
  decide

theorem restOk_arrTail (k : Nat) (xs : List Json) (z : List Char) :
    restOk (dumpsArrTail k xs ++ ('\n' :: z)) := by
  cases xs with
  | nil =>
    simp [dumpsArrTail]
    exact restOk_cons (by decide) z
  | cons y ys =>
    have h : dumpsArrTail k (y :: ys) ++ ('\n' :: z) =
        ',' :: ('\n' :: (indentOf k ++ (dumpsV k y ++ dumpsArrTail k ys)) ++ ('\n' :: z)) := by
      simp [dumpsArrTail]
    rw [h]
    exact restOk_cons (by decide) _

theorem restOk_objTail (k : Nat) (es : List (String × Json)) (z : List Char) :
    restOk (dumpsObjTail k es ++ ('\n' :: z)) := by
  cases es with
  | nil =>
    simp [dumpsObjTail]
    exact restOk_cons (by decide) z
  | cons y ys =>
    have h : dumpsObjTail k (y :: ys) ++ ('\n' :: z) =
        ',' :: ('\n' :: (indentOf k ++ (dumpsEntry k y ++ dumpsObjTail k ys)) ++ ('\n' :: z)) := by
      simp [dumpsObjTail]
    rw [h]
    exact restOk_cons (by decide) _

theorem parseEntry_ws_drop (f : Nat) (c : Char) (cs : List Char) (h : isWs c = true) :
    parseEntry f (c :: cs) = parseEntry f cs := by
  cases f with
  | zero => simp [parseEntry]
  | succ f' =>
    have hs := skipWs_ws c cs h
    conv_lhs => rw [parseEntry.eq_def]
    conv_rhs => rw [parseEntry.eq_def]
    simp only [hs]

theorem parseEntry_ws_append (f : Nat) (ws cs : List Char) (h : ∀ c, c ∈ ws → isWs c = true) :
    parseEntry f (ws ++ cs) = parseEntry f cs := by
  induction ws with
  | nil => simp
  | cons c w ih =>
    rw [List.cons_append, parseEntry_ws_drop f c _ (h c (by simp)),
      ih (fun c hc => h c (by simp [hc]))]

/-- Main round-trip lemma: parsing a serialized value followed by any remainder that
does not start with a digit yields exactly that value and remainder, given enough
fuel; likewise for object members, array tails, and object tails. -/
theorem parse_dumps (fuel : Nat) :
    (∀ j k rest, needV j ≤ fuel → restOk rest →
      parseVal fuel (dumpsV k j ++ rest) = some (j, rest)) ∧
    (∀ e k rest, needEnt e ≤ fuel → restOk rest →
      parseEntry fuel (dumpsEntry k e ++ rest) = some (e, rest)) ∧
    (∀ xs k rest, needA xs ≤ fuel →
      parseArrTail fuel (dumpsArrTail (k + 1) xs ++ ('\n' :: (indentOf k ++ (']' :: rest)))) =
        some (xs, rest)) ∧
    (∀ es k rest, needO es ≤ fuel →
      parseObjTail fuel (dumpsObjTail (k + 1) es ++ ('\n' :: (indentOf k ++ (rbrace :: rest)))) =
        some (es, rest)) := by
  induction fuel with
  | zero =>
    refine ⟨fun j k rest hf _ => absurd hf (by have := needV_pos j; omega),
            fun e k rest hf _ => absurd hf (by have := needEnt_pos e; omega),
            fun xs k rest hf => absurd hf (by have := needA_pos xs; omega),
            fun es k rest hf => absurd hf (by have := needO_pos es; omega)⟩
  | succ f IH =>
    obtain ⟨IHV, IHE, IHA, IHO⟩ := IH
    refine ⟨?_, ?_, ?_, ?_⟩
    · intro j k rest hf hr
      cases j with
      | null =>
        have h : dumpsV k Json.null ++ rest = 'n' :: 'u' :: 'l' :: 'l' :: rest := by
          simp [dumpsV]
        rw [h, parseVal_null]
      | bool b =>
        cases b with
        | true =>
          have h : dumpsV k (Json.bool true) ++ rest = 't' :: 'r' :: 'u' :: 'e' :: rest := by
            simp [dumpsV]
          rw [h, parseVal_true]
        | false =>
          have h : dumpsV k (Json.bool false) ++ rest =
              'f' :: 'a' :: 'l' :: 's' :: 'e' :: rest := by
            simp [dumpsV]
          rw [h, parseVal_false]
      | str s =>
        have h : dumpsV k (Json.str s) ++ rest = '"' :: (escString s.data ++ ('"' :: rest)) := by
          simp [dumpsV]
        rw [h, parseVal_str, parseStr_round s.data rest]
      | int n =>
        cases n with
        | ofNat m =>
          obtain ⟨d, t, hd, hdig⟩ := natDigits_cons m
          have h : dumpsV k (Json.int (Int.ofNat m)) ++ rest = d :: (t ++ rest) := by
            simp [dumpsV, intDigits, hd]
          rw [h, parseVal_digit f d (t ++ rest) hdig]
          have h2 : d :: (t ++ rest) = natDigits m ++ rest := by
            rw [hd]
            rfl
          rw [h2, takeDigits_append (natDigits m) rest (natDigits_digits m) hr]
          simp [digitsVal_natDigits]
        | negSucc m =>
          have h : dumpsV k (Json.int (Int.negSucc m)) ++ rest =
              '-' :: (natDigits (m + 1) ++ rest) := by
            simp [dumpsV, intDigits]
          rw [h, parseVal_neg, takeDigits_append (natDigits (m + 1)) rest
            (natDigits_digits (m + 1)) hr]
          obtain ⟨d, t, hd, -⟩ := natDigits_cons (m + 1)
          rw [hd]
          have hval : digitsVal (d :: t) = m + 1 := by
            rw [← hd]
            exact digitsVal_natDigits (m + 1)
          simp [hval, Int.negSucc_eq]
      | arr xs =>
        cases xs with
        | nil =>
          have h : dumpsV k (Json.arr []) ++ rest = '[' :: (']' :: rest) := by
            simp [dumpsV]
          rw [h, parseVal_arr, skipWs_not ']' rest (by decide)]
          simp
        | cons x xs' =>
          have harith : needV x ≤ f ∧ needA xs' ≤ f := by
            simp [needV] at hf
            omega
          obtain ⟨c0, t0, hv, hnws, hne1, -, -⟩ := dumpsV_shape (k + 1) x
          have h : dumpsV k (Json.arr (x :: xs')) ++ rest =
              '[' :: ('\n' :: (indentOf (k + 1) ++ (dumpsV (k + 1) x ++ (dumpsArrTail (k + 1) xs' ++
                ('\n' :: (indentOf k ++ (']' :: rest))))))) := by
            simp [dumpsV]
          rw [h, parseVal_arr, skipWs_ws '\n' _ (by decide), skipWs_indent, hv,
            List.cons_append, skipWs_not c0 _ hnws]
          have hIV := IHV x (k + 1)
            (dumpsArrTail (k + 1) xs' ++ ('\n' :: (indentOf k ++ (']' :: rest))))
            harith.1 (restOk_arrTail (k + 1) xs' _)
          rw [hv, List.cons_append] at hIV
          have hIA := IHA xs' k rest harith.2
          simp [hne1, hIV, hIA]
      | obj es =>
        cases es with
        | nil =>
          have h : dumpsV k (Json.obj []) ++ rest = lbrace :: (rbrace :: rest) := by
            simp [dumpsV]
          rw [h, parseVal_obj, skipWs_not rbrace rest (by decide)]
          simp
        | cons e es' =>
          have harith : needEnt e ≤ f ∧ needO es' ≤ f := by
            simp [needV] at hf
            omega
          obtain ⟨key, v⟩ := e
          have hv : dumpsEntry (k + 1) (key, v) =
              '"' :: (escString key.data ++ ('"' :: ':' :: ' ' :: dumpsV (k + 1) v)) := by
            simp [dumpsEntry]
          have h : dumpsV k (Json.obj ((key, v) :: es')) ++ rest =
              lbrace :: ('\n' :: (indentOf (k + 1) ++ (dumpsEntry (k + 1) (key, v) ++
                (dumpsObjTail (k + 1) es' ++ ('\n' :: (indentOf k ++ (rbrace :: rest))))))) := by
            simp [dumpsV]
          rw [h, parseVal_obj, skipWs_ws '\n' _ (by decide), skipWs_indent, hv,
            List.cons_append, skipWs_not '"' _ (by decide)]
          have hIE := IHE (key, v) (k + 1)
            (dumpsObjTail (k + 1) es' ++ ('\n' :: (indentOf k ++ (rbrace :: rest))))
            harith.1 (restOk_objTail (k + 1) es' _)
          rw [hv, List.cons_append] at hIE
          simp only [List.append_assoc, List.cons_append] at hIE
          have hIO := IHO es' k rest harith.2
          simp +decide [List.append_assoc, List.cons_append, hIE, hIO]
    · intro e k rest hf hr
      obtain ⟨key, v⟩ := e
      have harith : needV v ≤ f := by
        simp [needEnt] at hf
        omega
      have h : dumpsEntry k (key, v) ++ rest =
          '"' :: (escString key.data ++ ('"' :: (':' :: (' ' :: (dumpsV k v ++ rest))))) := by
        simp [dumpsEntry]
      rw [h, parseEntry_step, parseStr_round key.data]
      have hs2 := skipWs_not ':' (' ' :: (dumpsV k v ++ rest)) (by decide)
      have hv2 : parseVal f (' ' :: (dumpsV k v ++ rest)) = some (v, rest) := by
        rw [parseVal_ws_drop f ' ' _ (by decide)]
        exact IHV v k rest harith hr
      simp [hs2, hv2]
    · intro xs k rest hf
      cases xs with
      | nil =>
        have h : dumpsArrTail (k + 1) [] ++ ('\n' :: (indentOf k ++ (']' :: rest))) =
            '\n' :: (indentOf k ++ (']' :: rest)) := by
          simp [dumpsArrTail]
        rw [h]
        apply parseArrTail_close
        rw [skipWs_ws '\n' _ (by decide), skipWs_indent, skipWs_not ']' _ (by decide)]
      | cons y ys =>
        have harith : needV y ≤ f ∧ needA ys ≤ f := by
          simp [needA] at hf
          omega
        have h : dumpsArrTail (k + 1) (y :: ys) ++ ('\n' :: (indentOf k ++ (']' :: rest))) =
            ',' :: ('\n' :: (indentOf (k + 1) ++ (dumpsV (k + 1) y ++ (dumpsArrTail (k + 1) ys ++
              ('\n' :: (indentOf k ++ (']' :: rest))))))) := by
          simp [dumpsArrTail]
        rw [h, parseArrTail_comma f _ _ (skipWs_not ',' _ (by decide))]
        have hpv : parseVal f ('\n' :: (indentOf (k + 1) ++ (dumpsV (k + 1) y ++
            (dumpsArrTail (k + 1) ys ++ ('\n' :: (indentOf k ++ (']' :: rest))))))) =
            some (y, dumpsArrTail (k + 1) ys ++ ('\n' :: (indentOf k ++ (']' :: rest)))) := by
          rw [parseVal_ws_drop f '\n' _ (by decide),
            parseVal_ws_append f (indentOf (k + 1)) _ (indent_ws (k + 1))]
          exact IHV y (k + 1) _ harith.1 (restOk_arrTail (k + 1) ys _)
        have hta := IHA ys k rest harith.2
        simp [hpv, hta]
    · intro es k rest hf
      cases es with
      | nil =>
        have h : dumpsObjTail (k + 1) [] ++ ('\n' :: (indentOf k ++ (rbrace :: rest))) =
            '\n' :: (indentOf k ++ (rbrace :: rest)) := by
          simp [dumpsObjTail]
        rw [h]
        apply parseObjTail_close
        rw [skipWs_ws '\n' _ (by decide), skipWs_indent, skipWs_not rbrace _ (by decide)]
      | cons y ys =>
        have harith : needEnt y ≤ f ∧ needO ys ≤ f := by
          simp [needO] at hf
          omega
        have h : dumpsObjTail (k + 1) (y :: ys) ++ ('\n' :: (indentOf k ++ (rbrace :: rest))) =
            ',' :: ('\n' :: (indentOf (k + 1) ++ (dumpsEntry (k + 1) y ++ (dumpsObjTail (k + 1) ys ++
              ('\n' :: (indentOf k ++ (rbrace :: rest))))))) := by
          simp [dumpsObjTail]
        rw [h, parseObjTail_comma f _ _ (skipWs_not ',' _ (by decide))]
        have hpe : parseEntry f ('\n' :: (indentOf (k + 1) ++ (dumpsEntry (k + 1) y ++
            (dumpsObjTail (k + 1) ys ++ ('\n' :: (indentOf k ++ (rbrace :: rest))))))) =
            some (y, dumpsObjTail (k + 1) ys ++ ('\n' :: (indentOf k ++ (rbrace :: rest)))) := by
          rw [parseEntry_ws_drop f '\n' _ (by decide),
            parseEntry_ws_append f (indentOf (k + 1)) _ (indent_ws (k + 1))]
          exact IHE y (k + 1) _ harith.1 (restOk_objTail (k + 1) ys _)
        have hto := IHO ys k rest harith.2
        simp [hpe, hto]

/-- Round trip: parsing the canonical serialization of any value returns exactly
that value. -/
theorem parseJson_dumps (j : Json) : parseJson (dumps j) = some j := by
  have hfuel : needV j ≤ (dumpsV 0 j).length + 1 := le_trans (need_le_len j 0) (by omega)
  have hmain := (parse_dumps ((dumpsV 0 j).length + 1)).1 j 0 [] hfuel restOk_nil
  rw [List.append_nil] at hmain
  unfold parseJson
  have hdata : (dumps j).data = dumpsV 0 j := rfl
  rw [hdata, hmain]
  simp [skipWs]

-- The server layer of src/MCP/server.py.

/-- Python `dict.get`: look a key up in the (insertion-ordered, unique-keyed)
dispatch table, `none` when absent. -/
def dictGet (d : List (String × Json)) (k : String) : Option Json :=
  match d with
  | [] => none
  | (k', v) :: rest => if k' = k then some v else dictGet rest k

/-- One text content block, mirroring `mcp.types.TextContent(type="text", text=...)`. -/
structure TextContent where
  type : String
  text : String

/-- The `call_tool` handler (src/MCP/server.py lines 162-168): look the name up in
`_DISPATCH`; if absent, return the `"Unknown tool: <name>"` diagnostic, otherwise the
dataset serialized by `json.dumps(data, indent=2)` — in both cases a single text
content block. The `arguments` mapping is never read. -/
def call_tool (name : String) (arguments : List (String × Json)) : List TextContent :=
  match dictGet _DISPATCH name with
  | none => [⟨"text", "Unknown tool: " ++ name⟩]
  | some data => [⟨"text", dumps data⟩]

/-- The module-level state of src/MCP/server.py: the catalog and the dispatch
table, both built once at import time. -/
structure ServerState where
  tools : List Tool
  dispatch : List (String × Json)

/-- The state right after the module loads. -/
def initState : ServerState := ⟨TOOLS, _DISPATCH⟩

/-- The `list_tools` handler (src/MCP/server.py lines 156-159): return the catalog. -/
def list_tools (s : ServerState) : List Tool := s.tools

/-- One `call_tool` request handled against the module state. The Python handler
only reads the dispatch table and assigns nothing, so the state comes back
unchanged — stated explicitly so that absence of state leakage is a theorem about
this definition rather than an assumption. -/
def callToolStep (s : ServerState) (name : String) (arguments : List (String × Json)) :
    List TextContent × ServerState :=
  (match dictGet s.dispatch name with
   | none => [⟨"text", "Unknown tool: " ++ name⟩]
   | some data => [⟨"text", dumps data⟩], s)

-- The protocol envelopes (spec sections 3 and 4.4).

/-- A decoded request: `list_tools`, `call_tool`, or an unsupported method. -/
inductive RequestMethod where
  | listToolsReq : RequestMethod
  | callToolReq (name : String) (arguments : List (String × Json)) : RequestMethod
  | otherReq (method : String) : RequestMethod

/-- A request envelope: a correlation id and a method. -/
structure RequestEnvelope where
  requestId : Nat
  method : RequestMethod

/-- A successful response payload: a tool list or content blocks. -/
inductive ResponsePayload where
  | toolList (tools : List Tool) : ResponsePayload
  | content (blocks : List TextContent) : ResponsePayload

/-- Exactly one of result or error (spec section 3, `ResponseEnvelope`). -/
inductive Outcome where
  | result (payload : ResponsePayload) : Outcome
  | error (kind : String) (message : String) : Outcome

/-- A response envelope: the request's correlation id and the outcome. -/
structure ResponseEnvelope where
  requestId : Nat
  outcome : Outcome

/-- Modelled from the spec: the dispatcher's steady-state handling of one decoded
request (spec section 4.4); the loop itself lives in the external `mcp` library, not
under src/. A `list_tools` or `call_tool` handler result is wrapped as a successful
envelope (the unknown-tool diagnostic included); an unsupported method becomes a
protocol error envelope. -/
def handleRequest (s : ServerState) (r : RequestEnvelope) : ResponseEnvelope × ServerState :=
  match r.method with
  | .listToolsReq => (⟨r.requestId, .result (.toolList (list_tools s))⟩, s)
  | .callToolReq n args =>
    let out := callToolStep s n args
    (⟨r.requestId, .result (.content out.1)⟩, out.2)
  | .otherReq _ => (⟨r.requestId, .error "UnsupportedMethod" "unsupported method"⟩, s)

/-- Modelled from the spec: the serving loop (spec sections 4.5 and 5; implemented by
`mcp.server.Server.run` over stdio in the external library): read one request, handle
it, write the response, repeat; end of input closes the loop with no further output. -/
def runLoop (s : ServerState) : List RequestEnvelope → List ResponseEnvelope
  | [] => []
  | r :: rs =>
    let out := handleRequest s r
    out.1 :: runLoop out.2 rs

/-- The empty-object input schema every tool in the catalog declares. -/
def emptyObjectSchema : Json :=
  .obj [("type", .str "object"), ("properties", .obj []), ("required", .arr [])]

-- Module loading (src/MCP/server.py lines 12-38 import datasets from the data package).

/-- The modules of the repository's `data` package — the files that exist under
src/MCP/data/ — with the module-level constants each defines. -/
def dataPackageModules : List (String × List String) := [
  ("data.mothergoose", ["MOTHERGOOSE_API_ENDPOINTS", "MOTHERGOOSE_CELERY_TASKS",
    "MOTHERGOOSE_MODELS", "MOTHERGOOSE_SERVICES", "MOTHERGOOSE_ENV_VARS"]),
  ("data.uglyfox", ["UGLYFOX_CELERY_TASKS", "UGLYFOX_CONFIG_SCHEMA", "UGLYFOX_ENV_VARS"]),
  ("data.gosling", ["GOSLING_COMMANDS", "FLY_LANGUAGE_REFERENCE", "FLY_EXAMPLES"]),
  ("data.compute_module", ["COMPUTE_MODULE_VARIABLES", "COMPUTE_MODULE_OUTPUTS",
    "COMPUTE_MODULE_PROVIDERS"]),
  ("data.kiro", ["STEERING_PRODUCT", "STEERING_STRUCTURE", "STEERING_TECH"])]

/-- The `from data.<module> import <name>` statements at the top of
src/MCP/server.py (lines 12-38), in order. -/
def serverDataImports : List (String × String) := [
  ("data.mothergoose", "MOTHERGOOSE_API_ENDPOINTS"),
  ("data.mothergoose", "MOTHERGOOSE_CELERY_TASKS"),
  ("data.mothergoose", "MOTHERGOOSE_MODELS"),
  ("data.mothergoose", "MOTHERGOOSE_SERVICES"),
  ("data.mothergoose", "MOTHERGOOSE_ENV_VARS"),
  ("data.uglyfox", "UGLYFOX_CELERY_TASKS"),
  ("data.uglyfox", "UGLYFOX_CONFIG_SCHEMA"),
  ("data.uglyfox", "UGLYFOX_ENV_VARS"),
  ("data.gosling", "GOSLING_COMMANDS"),
  ("data.gosling", "FLY_LANGUAGE_REFERENCE"),
  ("data.gosling", "FLY_EXAMPLES"),
  ("data.compute_module", "COMPUTE_MODULE_VARIABLES"),
  ("data.compute_module", "COMPUTE_MODULE_OUTPUTS"),
  ("data.compute_module", "COMPUTE_MODULE_PROVIDERS"),
  ("data.cross_cutting", "SECRET_URI_SCHEMES"),
  ("data.cross_cutting", "DATABASE_SCHEMA"),
  ("data.cross_cutting", "ARCHITECTURE_OVERVIEW")]

/-- Python import semantics restricted to what decides load success: a
`from M import N` statement succeeds iff module `M` exists in the package and
defines `N`. -/
def importOk (imp : String × String) : Bool :=
  match List.lookup imp.1 dataPackageModules with
  | some names => names.contains imp.2
  | none => false

/-- Whether the import prologue of src/MCP/server.py executes without raising:
every dataset import must resolve. Loading the module runs exactly these imports
before any handler is registered. -/
def serverModuleLoads : Bool := serverDataImports.all importOk

theorem handleRequest_id (s : ServerState) (r : RequestEnvelope) :
    ((handleRequest s r).1).requestId = r.requestId := by
  cases hm : r.method <;> simp [handleRequest, hm]

/-- C1: for every tool name bound in the dispatch table, `call_tool` returns a single
text content block whose text is exactly the `json.dumps(data, indent=2)` serialization
of the bound dataset, whatever the arguments; and calling again from the resulting
module state returns the byte-identical response (idempotence). -/
theorem C1_call_tool_serializes_bound_dataset (n : String) (d : Json)
    (args : List (String × Json)) (h : dictGet _DISPATCH n = some d) :
    call_tool n args = [⟨"text", dumps d⟩] ∧
    (callToolStep initState n args).1 = [⟨"text", dumps d⟩] ∧
    callToolStep (callToolStep initState n args).2 n args = callToolStep initState n args := by
  refine ⟨?_, ?_, ?_⟩
  · simp [call_tool, h]
  · simp [callToolStep, initState, h]
  · rfl

theorem C1_call_tool_witness :
    dictGet _DISPATCH "get_architecture_overview" = some ARCHITECTURE_OVERVIEW ∧
    call_tool "get_architecture_overview" [] = [⟨"text", dumps ARCHITECTURE_OVERVIEW⟩] :=
  ⟨rfl, (C1_call_tool_serializes_bound_dataset "get_architecture_overview"
    ARCHITECTURE_OVERVIEW [] rfl).1⟩

/-- C2: for every name with no binding, `call_tool` returns the single diagnostic text
block `"Unknown tool: <n>"`, and the dispatcher wraps it as a successful (result, not
error) envelope — the unknown tool is never a protocol-level error. -/
theorem C2_unknown_tool_success_diagnostic (n : String) (args : List (String × Json))
    (id : Nat) (h : dictGet _DISPATCH n = none) :
    call_tool n args = [⟨"text", "Unknown tool: " ++ n⟩] ∧
    handleRequest initState ⟨id, .callToolReq n args⟩ =
      (⟨id, .result (.content [⟨"text", "Unknown tool: " ++ n⟩])⟩, initState) := by
  constructor
  · simp [call_tool, h]
  · simp [handleRequest, callToolStep, initState, h]

theorem C2_unknown_tool_witness :
    dictGet _DISPATCH "missing" = none ∧
    call_tool "missing" [] = [⟨"text", "Unknown tool: " ++ "missing"⟩] :=
  ⟨rfl, (C2_unknown_tool_success_diagnostic "missing" [] 0 rfl).1⟩

/-- C3: `list_tools` returns the full catalog in declaration order after any number of
preceding `call_tool` invocations (which leave the module state untouched), and every
declared descriptor appears exactly once (the name column has no duplicates). -/
theorem C3_list_tools_fixed_and_complete (calls : List (String × List (String × Json))) :
    list_tools (calls.foldl (fun s c => (callToolStep s c.1 c.2).2) initState) = TOOLS ∧
    ∀ nm, nm ∈ TOOLS.map Tool.name →
      ((list_tools (calls.foldl (fun s c => (callToolStep s c.1 c.2).2) initState)).map
        Tool.name).count nm = 1 := by
  have hstate : ∀ (l : List (String × List (String × Json))) (s : ServerState),
      l.foldl (fun s c => (callToolStep s c.1 c.2).2) s = s := by
    intro l
    induction l with
    | nil => intro s; rfl
    | cons c cs ih => intro s; exact ih s
  rw [hstate]
  refine ⟨rfl, ?_⟩
  intro nm hnm
  have hnodup : (TOOLS.map Tool.name).Nodup := by decide
  exact List.count_eq_one_of_mem hnodup hnm

theorem C3_list_tools_witness :
    list_tools ([("get_fly_examples", [])].foldl
      (fun s c => (callToolStep s c.1 c.2).2) initState) = TOOLS ∧
    ((list_tools ([("get_fly_examples", [])].foldl
      (fun s c => (callToolStep s c.1 c.2).2) initState)).map Tool.name).count
      "get_fly_examples" = 1 :=
  ⟨(C3_list_tools_fixed_and_complete _).1,
   (C3_list_tools_fixed_and_complete _).2 "get_fly_examples" (by decide)⟩

/-- C4: the set of names advertised in the catalog equals the set of keys of the
dispatch table — every advertised tool has a binding and every binding is advertised. -/
theorem C4_catalog_binding_names_agree (n : String) :
    n ∈ TOOLS.map Tool.name ↔ n ∈ _DISPATCH.map Prod.fst := by
  have h : TOOLS.map Tool.name = _DISPATCH.map Prod.fst := by decide
  rw [h]

/-- C5: the claim that every bound data value comes from an existing source module
fails — src/MCP/server.py imports `SECRET_URI_SCHEMES`, `DATABASE_SCHEMA` and
`ARCHITECTURE_OVERVIEW` from `data.cross_cutting`, but the repository's data package
has no such module (it holds mothergoose, uglyfox, gosling, compute_module and kiro),
so the module-load imports do not all resolve and loading src/MCP/server.py raises. -/
theorem C5_cross_cutting_module_missing :
    serverModuleLoads = false ∧
    List.lookup "data.cross_cutting" dataPackageModules = none ∧
    importOk ("data.cross_cutting", "SECRET_URI_SCHEMES") = false := by
  refine ⟨?_, by decide, by decide⟩
  decide

/-- C6: serializing any dataset bound in the dispatch table and parsing the text back
with the generic JSON parser reproduces a value structurally equal to the original. -/
theorem C6_serialization_round_trip (n : String) (d : Json)
    (h : dictGet _DISPATCH n = some d) : parseJson (dumps d) = some d :=
  parseJson_dumps d

theorem C6_round_trip_witness :
    dictGet _DISPATCH "get_secret_uri_schemes" = some SECRET_URI_SCHEMES ∧
    parseJson (dumps SECRET_URI_SCHEMES) = some SECRET_URI_SCHEMES :=
  ⟨rfl, C6_serialization_round_trip "get_secret_uri_schemes" SECRET_URI_SCHEMES rfl⟩

/-- C7: no two entries of the tool catalog share a name. -/
theorem C7_catalog_names_nodup : (TOOLS.map Tool.name).Nodup := by decide

/-- C8: every descriptor in the catalog carries the empty-object input schema
(an object schema with no properties and no required fields). -/
theorem C8_all_input_schemas_empty (t : Tool) (h : t ∈ TOOLS) :
    t.inputSchema = emptyObjectSchema := by
  have hmap : TOOLS.map Tool.inputSchema = List.replicate 17 emptyObjectSchema := by rfl
  have hmem : t.inputSchema ∈ TOOLS.map Tool.inputSchema := List.mem_map_of_mem Tool.inputSchema h
  rw [hmap] at hmem
  exact List.eq_of_mem_replicate hmem

/-- The catalog's first descriptor, used as a concrete witness. -/
def tool0 : Tool :=
  ⟨"get_mothergoose_api_endpoints",
   "List all MotherGoose REST API endpoints with methods, paths, descriptions, and auth requirements.",
   emptyObjectSchema⟩

theorem C8_input_schema_witness : tool0 ∈ TOOLS ∧ tool0.inputSchema = emptyObjectSchema :=
  ⟨List.Mem.head _, C8_all_input_schemas_empty tool0 (List.Mem.head _)⟩

/-- C9: the response of `call_tool` depends only on the tool name — any two argument
mappings give identical results (and the handler is a pure function, so it is
deterministic). -/
theorem C9_call_tool_ignores_arguments (n : String) (a1 a2 : List (String × Json)) :
    call_tool n a1 = call_tool n a2 := rfl

/-- C10: the serving loop writes exactly one response per request read, in request
order (response i carries request i's correlation id), and terminates with exactly N
responses when the input ends after N requests — never N+1. -/
theorem C10_responses_match_requests (s : ServerState) (reqs : List RequestEnvelope) :
    (runLoop s reqs).length = reqs.length ∧
    (runLoop s reqs).map ResponseEnvelope.requestId = reqs.map RequestEnvelope.requestId := by
  induction reqs generalizing s with
  | nil => exact ⟨rfl, rfl⟩
  | cons r rs ih =>
    obtain ⟨h1, h2⟩ := ih (handleRequest s r).2
    constructor
    · simp [runLoop, h1]
    · simp [runLoop, h2, handleRequest_id]
